import Mathlib

/-!
Verification of the battle-engine core of the elves-world repository.

The Python source is shallowly embedded: Python ints become `ℤ`, floats
become `ℚ`, dictionaries with default lookups become total functions or
`Option`-valued functions, and every use of the `random` module becomes an
explicit value drawn from an `Rng` stream parameter.  `int(x)` in Python
truncates toward zero, which `pyInt` models; `//` is Python floor division,
modelled by `Int.fdiv`.

The file is organized as definitions first (mirroring `formulas.py`,
`constants.py`, `models.py`, `damage_calculator.py`, `effect_processor.py`,
`status_handler.py`, `weather_system.py`, `ai_controller.py` and
`battle_system.py`), followed by the theorems.
-/

namespace ElvesWorld

/-- Python `int(x)` applied to a float/rational: truncation toward zero. -/
def pyInt (q : ℚ) : ℤ := if 0 ≤ q then ⌊q⌋ else ⌈q⌉

/-- Python `s.endswith(suffix)`. -/
def pyEndsWith (s suffix : String) : Bool := suffix.data.isSuffixOf s.data

/-- Fuel-driven scanning loop of Python `s.replace(pat, rep)`:
left-to-right, non-overlapping. -/
def replaceLoop (pat rep : List Char) : ℕ → List Char → List Char
  | 0, s => s
  | _ + 1, [] => []
  | fuel + 1, c :: rest =>
    if pat.isPrefixOf (c :: rest) then
      rep ++ replaceLoop pat rep fuel ((c :: rest).drop pat.length)
    else c :: replaceLoop pat rep fuel rest

/-- Python `s.replace(pat, rep)` (for a nonempty pattern; an empty pattern
is returned unchanged, a case the engine never exercises). -/
def pyReplace (s pat rep : String) : String :=
  if pat.data.isEmpty then s
  else ⟨replaceLoop pat.data rep.data s.data.length s.data⟩

/-- A random stream: the successive values returned by `random.random()`,
each in `[0, 1)`.  An exhausted stream yields `0`. -/
def Rng : Type := List ℚ

/-- Draw the next `random.random()` value from the stream. -/
def rngNext : Rng → ℚ × Rng
  | List.nil => (0, List.nil)
  | List.cons r rest => (r, rest)

/-- Python `random.uniform(a, b)` expressed through a stream draw `r ∈ [0,1)`. -/
def uniformOf (a b r : ℚ) : ℚ := a + (b - a) * r

/-- `GameFormulas.calculate_damage` from `src/core/formulas.py`.
Returns `(damage, critical_hit)` and the remaining stream (one value is
consumed only when `random_factor` is true and the power is positive). -/
def calculate_damage (attacker_level attack_stat defense_stat skill_power : ℤ)
    (type_effectiveness weather_mod : ℚ) (is_critical is_stab : Bool)
    (random_factor : Bool) (rng : Rng) : (ℤ × Bool) × Rng :=
  if skill_power ≤ 0 then ((0, false), rng)
  else
    let base_damage : ℚ :=
      ((2 * (attacker_level : ℚ) / 5 + 2) * (skill_power : ℚ) * (attack_stat : ℚ)
        / (defense_stat : ℚ)) / 50 + 2
    let critical_mod : ℚ := if is_critical then 3/2 else 1
    let stab_mod : ℚ := if is_stab then 3/2 else 1
    let (random_mod, rng') :=
      if random_factor then
        let (r, rest) := rngNext rng
        (uniformOf (85/100) 1 r, rest)
      else (1, rng)
    let final_damage :=
      base_damage * type_effectiveness * weather_mod * critical_mod * stab_mod * random_mod
    ((max 1 (pyInt final_damage), is_critical), rng')

/-- `GameFormulas.get_type_effectiveness`: fold over the defender's types,
doubling for each type the attack type is strong against and halving for
each it is weak against. -/
def get_type_effectiveness (strong_against weak_against : List String)
    (defender_types : List String) : ℚ :=
  defender_types.foldl
    (fun multiplier def_type =>
      if def_type ∈ strong_against then multiplier * 2
      else if def_type ∈ weak_against then multiplier * (1/2)
      else multiplier) 1

/-- `GameFormulas.calculate_exp_gain` from `src/core/formulas.py`. -/
def calculate_exp_gain (base_exp enemy_level player_level : ℤ)
    (is_wild is_boss : Bool) : ℤ :=
  let exp₀ : ℚ := ((base_exp : ℚ) * (enemy_level : ℚ)) / 7
  let level_diff := enemy_level - player_level
  let exp₁ :=
    if 0 < level_diff then exp₀ * (1 + (level_diff : ℚ) * (5/100))
    else if level_diff < -10 then exp₀ * max (1/10) (1 + (level_diff : ℚ) * (1/10))
    else exp₀
  let exp₂ := if is_wild then exp₁ else exp₁ * (3/2)
  let exp₃ := if is_boss then exp₂ * 3 else exp₂
  max 1 (pyInt exp₃)

/-- Battle event messages.  The Python code emits human-readable strings;
each emission site is modelled by one tagged constructor so that message
production (which events fire) is preserved without reproducing the text. -/
inductive Msg
  | statusWokeUp | statusCantMove | paralyzedCantMove
  | skillMissing | usedSkill (skillId : String) | missed
  | shieldAbsorbed (amount : ℤ) | shieldBroken
  | criticalHit | superEffective | notEffective | dealtDamage (amount : ℤ)
  | drained (amount : ℤ) | targetFainted
  | statusInflicted (status : String) | statChanged (stat : String) (up : Bool)
  | healed (amount : ℤ) | regenApplied (duration : ℤ)
  | shieldApplied (amount duration : ℤ) | drainReady
  | percentBuff (stat : String) (value duration : ℤ)
  | percentDebuff (stat : String) (value duration : ℤ)
  | confuseApplied (duration : ℤ)
  | burnDamage (amount : ℤ) | poisonDamage (amount : ℤ)
  | weatherDamage (amount : ℤ) | regenHealed (amount : ℤ) | regenExpired
  | shieldExpired | confuseExpired | buffExpired (stat : String)
  | debuffExpired (stat : String) | weatherCleared
  | switchFailNotFound | switchFailFainted | switchOut | switchIn
  | itemMissing | itemUsed (itemId : String) | itemHealed (amount : ℤ)
  | statusCured | noStatus | fullyRestored
  | fleeBlocked | fleeSuccess | fleeFail
  | catchBlocked | catchNoTarget | catchNoBall | catchInvalidBall | catchMissingBall
  | catchSuccess | catchFail
  | allPlayerFainted | battleWon | enemySent (name : String)

/-- The monster combat view: the dictionary fields of one team entry that the
battle engine reads or writes.  Dictionary lookups with a default value are
modelled by `Option` results (`stats`) or total functions with built-in
default 0 (the `_buff_*` / `_debuff_*` side-channel keys). -/
structure Monster where
  instance_id : String
  template_id : String
  name : String
  level : ℤ
  types : List String
  stats : String → Option ℤ
  max_hp : ℤ
  current_hp : ℤ
  skills : List String
  status : Option String
  status_turns : ℤ
  shield : ℤ
  shield_turns : ℤ
  regen : ℤ
  regen_turns : ℤ
  drain_percent : ℤ
  confused : Bool
  confused_turns : ℤ
  buff : String → ℤ
  buff_turns : String → ℤ
  debuff : String → ℤ
  debuff_turns : String → ℤ
  rarity : ℤ

/-- A baseline monster record, for building concrete instances. -/
def baseMonster : Monster where
  instance_id := ""
  template_id := ""
  name := ""
  level := 1
  types := []
  stats := fun _ => none
  max_hp := 100
  current_hp := 100
  skills := []
  status := none
  status_turns := 0
  shield := 0
  shield_turns := 0
  regen := 0
  regen_turns := 0
  drain_percent := 0
  confused := false
  confused_turns := 0
  buff := fun _ => 0
  buff_turns := fun _ => 0
  debuff := fun _ => 0
  debuff_turns := fun _ => 0
  rarity := 3

/-- Shield absorption followed by HP subtraction, from
`BattleSystem._execute_skill` (`battle_system.py` lines 449-462).  The second
component is the post-absorption damage that reached HP (the Python local
`damage` after reassignment), which later feeds the damage message and the
drain heal. -/
def apply_skill_damage (defender : Monster) (damage : ℤ) : Monster × ℤ × List Msg :=
  let shield := defender.shield
  if 0 < shield then
    let absorbed := min shield damage
    let shield' := shield - absorbed
    let damage' := damage - absorbed
    let msgs₁ := if 0 < absorbed then [Msg.shieldAbsorbed absorbed] else []
    let defender' :=
      if shield' ≤ 0 then { defender with shield := 0, shield_turns := 0 }
      else { defender with shield := shield' }
    let msgs₂ := if shield' ≤ 0 then [Msg.shieldBroken] else []
    ({ defender' with current_hp := max 0 (defender'.current_hp - damage') },
      damage', msgs₁ ++ msgs₂)
  else
    ({ defender with current_hp := max 0 (defender.current_hp - damage) }, damage, [])

/-- Drain healing of the attacker from the post-absorption damage, from
`BattleSystem._execute_skill` (`battle_system.py` lines 476-484). -/
def apply_drain_heal (attacker : Monster) (damage : ℤ) : Monster × List Msg :=
  let dp := attacker.drain_percent
  if 0 < dp ∧ 0 < damage then
    let drain_amount := pyInt ((damage : ℚ) * (dp : ℚ) / 100)
    if 0 < drain_amount then
      let old_hp := attacker.current_hp
      let hp' := min attacker.max_hp (old_hp + drain_amount)
      ({ attacker with current_hp := hp' },
        if 0 < hp' - old_hp then [Msg.drained (hp' - old_hp)] else [])
    else (attacker, [])
  else (attacker, [])

/-- Burn/poison end-of-turn damage for one monster, from
`StatusHandler.apply_status_damage` (`status_handler.py` lines 47-65);
the fainted guard of the caller loop is included. -/
def apply_status_damage_one (m : Monster) : Monster × List Msg :=
  if m.current_hp ≤ 0 then (m, [])
  else
    match m.status with
    | none => (m, [])
    | some s =>
      if s = "burn" then
        let damage := max 1 (Int.fdiv m.max_hp 16)
        ({ m with current_hp := max 0 (m.current_hp - damage) }, [Msg.burnDamage damage])
      else if s = "poison" then
        let damage := max 1 (Int.fdiv m.max_hp 8)
        ({ m with current_hp := max 0 (m.current_hp - damage) }, [Msg.poisonDamage damage])
      else (m, [])

/-- Weather damage-over-time for one monster, from
`WeatherSystem.apply_weather_damage` (`weather_system.py` lines 59-69);
`immune` is the precomputed type-immunity test against the weather config. -/
def apply_weather_dot_one (m : Monster) (pct : ℚ) (immune : Bool) : Monster × List Msg :=
  if m.current_hp ≤ 0 then (m, [])
  else if immune then (m, [])
  else
    let damage := max 1 (pyInt ((m.max_hp : ℚ) * pct / 100))
    ({ m with current_hp := max 0 (m.current_hp - damage) }, [Msg.weatherDamage damage])

/-- Regen tick for one monster, from `StatusHandler._process_regen`
(`status_handler.py` lines 105-127). -/
def process_regen_one (m : Monster) : Monster × List Msg :=
  if 0 < m.regen ∧ 0 < m.regen_turns then
    let heal := max 1 (pyInt ((m.max_hp : ℚ) * (m.regen : ℚ) / 100))
    let old_hp := m.current_hp
    let hp' := min m.max_hp (old_hp + heal)
    let turns' := m.regen_turns - 1
    let msgs₁ := if 0 < hp' - old_hp then [Msg.regenHealed (hp' - old_hp)] else []
    if turns' ≤ 0 then
      ({ m with current_hp := hp', regen_turns := turns', regen := 0 },
        msgs₁ ++ [Msg.regenExpired])
    else ({ m with current_hp := hp', regen_turns := turns' }, msgs₁)
  else (m, [])

/-- Shield duration decay for one monster, from
`StatusHandler._process_shield_decay` (`status_handler.py` lines 129-142). -/
def process_shield_decay_one (m : Monster) : Monster × List Msg :=
  if 0 < m.shield_turns then
    let turns' := m.shield_turns - 1
    if turns' ≤ 0 then
      let shield_left := m.shield
      ({ m with shield_turns := turns', shield := 0 },
        if 0 < shield_left then [Msg.shieldExpired] else [])
    else ({ m with shield_turns := turns' }, [])
  else (m, [])

/-- Confusion duration decay for one monster, from
`StatusHandler._process_confuse_decay` (`status_handler.py` lines 144-155). -/
def process_confuse_decay_one (m : Monster) : Monster × List Msg :=
  if 0 < m.confused_turns then
    let turns' := m.confused_turns - 1
    if turns' ≤ 0 then
      ({ m with confused_turns := turns', confused := false }, [Msg.confuseExpired])
    else ({ m with confused_turns := turns' }, [])
  else (m, [])

/-- The `MODIFIABLE_STATS` constant from `constants.py`. -/
def modifiableStats : List String :=
  ["attack", "defense", "sp_attack", "sp_defense", "speed", "accuracy", "evasion",
    "critical"]

/-- One stat's buff decay step inside `StatusHandler._process_buff_decay`. -/
def decay_buff_stat (m : Monster) (stat : String) : Monster × List Msg :=
  let buff_turns := m.buff_turns stat
  if 0 < buff_turns then
    let m' := { m with buff_turns := Function.update m.buff_turns stat (buff_turns - 1) }
    if buff_turns - 1 ≤ 0 then
      if 0 < m.buff stat then
        ({ m' with buff := Function.update m'.buff stat 0 }, [Msg.buffExpired stat])
      else (m', [])
    else (m', [])
  else (m, [])

/-- One stat's debuff decay step inside `StatusHandler._process_buff_decay`. -/
def decay_debuff_stat (m : Monster) (stat : String) : Monster × List Msg :=
  let debuff_turns := m.debuff_turns stat
  if 0 < debuff_turns then
    let m' := { m with debuff_turns := Function.update m.debuff_turns stat (debuff_turns - 1) }
    if debuff_turns - 1 ≤ 0 then
      if 0 < m.debuff stat then
        ({ m' with debuff := Function.update m'.debuff stat 0 }, [Msg.debuffExpired stat])
      else (m', [])
    else (m', [])
  else (m, [])

/-- `StatusHandler._process_buff_decay`: buffs then debuffs over all
modifiable stats. -/
def process_buff_decay_one (m : Monster) : Monster × List Msg :=
  let afterBuffs := modifiableStats.foldl
    (fun acc stat =>
      let r := decay_buff_stat acc.1 stat
      (r.1, acc.2 ++ r.2)) (m, ([] : List Msg))
  modifiableStats.foldl
    (fun acc stat =>
      let r := decay_debuff_stat acc.1 stat
      (r.1, acc.2 ++ r.2)) afterBuffs

/-- Heal effect on the actor, from `EffectProcessor._apply_heal`
(`effect_processor.py` lines 219-228). -/
def apply_heal_effect (m : Monster) (value : ℤ) : Monster × List Msg :=
  let heal_amount := pyInt ((m.max_hp : ℚ) * (value : ℚ) / 100)
  let old_hp := m.current_hp
  let hp' := min m.max_hp (old_hp + heal_amount)
  ({ m with current_hp := hp' },
    if 0 < hp' - old_hp then [Msg.healed (hp' - old_hp)] else [])

/-- Heal-item application, from `BattleSystem._execute_item`
(`battle_system.py` lines 574-580). -/
def apply_item_heal (m : Monster) (heal_amount : ℤ) : Monster × List Msg :=
  let old_hp := m.current_hp
  let hp' := min m.max_hp (old_hp + heal_amount)
  ({ m with current_hp := hp' }, [Msg.itemHealed (hp' - old_hp)])

/-- The HP-touching operations a battle turn can apply to one monster,
each referring to the mutation site embedded above. -/
inductive TurnOp
  | skillDamage (damage : ℤ)
  | drainHeal (damage : ℤ)
  | statusDamage
  | weatherDot (pct : ℚ) (immune : Bool)
  | regenTick
  | healEffect (value : ℤ)
  | itemHeal (amount : ℤ)

/-- Apply one turn operation to a monster (messages discarded). -/
def applyTurnOp (m : Monster) : TurnOp → Monster
  | .skillDamage damage => (apply_skill_damage m damage).1
  | .drainHeal damage => (apply_drain_heal m damage).1
  | .statusDamage => (apply_status_damage_one m).1
  | .weatherDot pct immune => (apply_weather_dot_one m pct immune).1
  | .regenTick => (process_regen_one m).1
  | .healEffect value => (apply_heal_effect m value).1
  | .itemHeal amount => (apply_item_heal m amount).1

/-- Well-formedness of an operation's parameters as produced by the engine:
skill damage is the nonnegative output of `calculate_damage`, drain damage is
the nonnegative post-absorption remainder, and heal values/amounts come from
nonnegative configuration entries. -/
def turnOpWF : TurnOp → Prop
  | .skillDamage damage => 0 ≤ damage
  | .drainHeal damage => 0 ≤ damage
  | .healEffect value => 0 ≤ value
  | .itemHeal amount => 0 ≤ amount
  | _ => True

instance : DecidablePred turnOpWF := by
  intro op
  cases op <;> simp only [turnOpWF] <;> infer_instance

/-- The HP invariant of the monster combat view. -/
def hpInv (m : Monster) : Prop := 0 ≤ m.current_hp ∧ m.current_hp ≤ m.max_hp

instance : DecidablePred hpInv := fun m => by unfold hpInv; infer_instance

/-- The `STAT_STAGE_MULTIPLIERS` table from `constants.py`, with the
`.get(stage, 1)` default for out-of-range keys. -/
def statStageMult (stage : ℤ) : ℚ :=
  if stage = -6 then 2/8 else if stage = -5 then 2/7 else if stage = -4 then 2/6
  else if stage = -3 then 2/5 else if stage = -2 then 2/4 else if stage = -1 then 2/3
  else if stage = 0 then 1 else if stage = 1 then 3/2 else if stage = 2 then 4/2
  else if stage = 3 then 5/2 else if stage = 4 then 6/2 else if stage = 5 then 7/2
  else if stage = 6 then 8/2 else 1

/-- The `ACCURACY_STAGE_MULTIPLIERS` table from `constants.py`, with the
`.get(stage, 1)` default for out-of-range keys. -/
def accuracyStageMult (stage : ℤ) : ℚ :=
  if stage = -6 then 3/9 else if stage = -5 then 3/8 else if stage = -4 then 3/7
  else if stage = -3 then 3/6 else if stage = -2 then 3/5 else if stage = -1 then 3/4
  else if stage = 0 then 1 else if stage = 1 then 4/3 else if stage = 2 then 5/3
  else if stage = 3 then 6/3 else if stage = 4 then 7/3 else if stage = 5 then 8/3
  else if stage = 6 then 9/3 else 1

/-- The keys of the stat-stage dictionaries in `BattleState`. -/
def stageKeys : List String :=
  ["attack", "defense", "sp_attack", "sp_defense", "speed", "accuracy", "evasion"]

/-- The keys of `STATUS_NAMES_CN` from `constants.py`. -/
def statusNames : List String := ["burn", "paralyze", "poison", "sleep", "freeze"]

/-- The `STATUS_IMMUNITY` map from `constants.py`. -/
def statusImmunity (status : String) : Option String :=
  if status = "burn" then some "fire"
  else if status = "freeze" then some "ice"
  else if status = "paralyze" then some "electric"
  else if status = "poison" then some "poison"
  else none

/-- One data-declared effect spec attached to a move, with the source's
defaulted fields (`chance` 100, `value` 0) baked in and the optional fields
(`duration`, `target`) kept optional as in the Python `.get` calls. -/
structure EffectSpec where
  etype : String
  chance : ℚ
  value : ℤ
  duration : Option ℤ
  target : Option String

/-- A move/skill definition from the configuration provider; the `.get`
defaults of every access site (`power` 0, `accuracy` 100, `category`
"physical", `type` "normal", `priority` 0, `effects` empty) are baked into
the fields of concrete instances. -/
structure Skill where
  name : String
  stype : String
  category : String
  power : ℤ
  accuracy : ℤ
  priority : ℤ
  effects : List EffectSpec

/-- A baseline effect spec with the dictionary defaults. -/
def baseEffect : EffectSpec where
  etype := ""
  chance := 100
  value := 0
  duration := none
  target := none

/-- A baseline skill with the dictionary defaults. -/
def baseSkill : Skill where
  name := ""
  stype := "normal"
  category := "physical"
  power := 0
  accuracy := 100
  priority := 0
  effects := []

/-- An item definition; `heal_amount` carries the `.get("heal_amount", 50)`
default, `capture_rate` the `ball_config["effect"]["capture_rate"]` value
with its 1.0 default. -/
structure Item where
  name : String
  itype : String
  heal_amount : ℤ
  capture_rate : ℚ

/-- A weather definition: DOT percentage, DOT-immune types and per-type
power modifiers (`effects[skill_type]["power_mod"]`, default 1.0). -/
structure Weather where
  dot_damage : ℚ
  dot_immune_types : List String
  power_mods : String → Option ℚ

/-- One entry of the type-effectiveness chart (`type_chart.get(t, {})`
yields the empty entry for missing types). -/
structure TypeEntry where
  strong_against : List String
  weak_against : List String

/-- The capture configuration (`config.catch_config`) as read by
`BattleSystem._process_catch`, with the `.get` defaults baked into concrete
instances (rarity default 0.5, cap 0.05/0.95, hp modifier 0.0/1.0). -/
structure CatchConfig where
  rarity_rates : ℤ → ℚ
  ball_multipliers : String → Option ℚ
  rate_min : ℚ
  rate_max : ℚ
  hp_min : ℚ
  hp_max : ℚ

/-- The read-only configuration provider. -/
structure Config where
  skills : String → Option Skill
  items : String → Option Item
  weathers : String → Option Weather
  types : String → TypeEntry
  monsters_base_exp : String → Option ℤ
  catch_config : CatchConfig

/-- The external inventory/player service as consulted by
`_process_catch`: ball possession and the active catch-rate buff. -/
structure PlayerMgr where
  has_ball : String → Bool
  catch_buff : ℚ

/-- `BattleType` from `models.py`. -/
inductive BattleType
  | wild | boss | pvp | trainer
  deriving DecidableEq

/-- `ActionType` from `models.py`. -/
inductive ActionType
  | skill | switch | item | catch | flee
  deriving DecidableEq

/-- `BattleAction` from `models.py`. -/
structure BattleAction where
  action_type : ActionType
  actor_id : String
  target_id : String
  skill_id : String
  item_id : String
  switch_to_id : String
  ball_id : String

/-- A baseline action with the dataclass defaults. -/
def baseAction : BattleAction where
  action_type := ActionType.skill
  actor_id := ""
  target_id := ""
  skill_id := ""
  item_id := ""
  switch_to_id := ""
  ball_id := ""

/-- The per-action result dictionary built by the `_execute_*` methods. -/
structure ActionRes where
  success : Bool
  messages : List Msg
  damage : ℤ
  is_critical : Bool
  effectiveness : ℚ
  is_missed : Bool
  target_fainted : Bool

/-- The initial `{"success": True, "messages": []}` result dictionary. -/
def baseActionRes : ActionRes where
  success := true
  messages := []
  damage := 0
  is_critical := false
  effectiveness := 1
  is_missed := false
  target_fainted := false

/-- `BattleState` from `models.py`, restricted to the fields the engine
reads or writes.  `boss_drops` is `boss_config["rewards"]["drops"]`, kept as
`none` when `boss_config` is absent/empty (Python falsiness). -/
structure Battle where
  battle_type : BattleType
  player_id : String
  player_team : List Monster
  player_active_index : ℕ
  enemy_team : List Monster
  enemy_active_index : ℕ
  enemy_is_wild : Bool
  boss_drops : Option (List (String × ℚ × ℤ))
  weather : String
  weather_turns : ℤ
  turn_count : ℤ
  is_active : Bool
  can_flee : Bool
  can_catch : Bool
  player_stat_stages : String → ℤ
  enemy_stat_stages : String → ℤ
  exp_gained : ℤ
  coins_gained : ℤ
  items_dropped : List (String × ℤ)

/-- The `player_monster` property of `BattleState`. -/
def Battle.player_monster (b : Battle) : Option Monster :=
  b.player_team.get? b.player_active_index

/-- The `enemy_monster` property of `BattleState`. -/
def Battle.enemy_monster (b : Battle) : Option Monster :=
  b.enemy_team.get? b.enemy_active_index

/-- The active monster of one side. -/
def Battle.activeMonster (b : Battle) (is_player : Bool) : Option Monster :=
  if is_player then b.player_monster else b.enemy_monster

/-- Write back the active monster of one side (the Python code mutates the
team-list entry through a dict reference). -/
def Battle.setActiveMonster (b : Battle) (is_player : Bool) (m : Monster) : Battle :=
  if is_player then { b with player_team := b.player_team.set b.player_active_index m }
  else { b with enemy_team := b.enemy_team.set b.enemy_active_index m }

/-- The stat-stage dictionary of one side. -/
def Battle.stagesOf (b : Battle) (is_player : Bool) : String → ℤ :=
  if is_player then b.player_stat_stages else b.enemy_stat_stages

/-- Write one stage entry of one side. -/
def Battle.setStage (b : Battle) (is_player : Bool) (stat : String) (v : ℤ) : Battle :=
  if is_player then
    { b with player_stat_stages := Function.update b.player_stat_stages stat v }
  else { b with enemy_stat_stages := Function.update b.enemy_stat_stages stat v }

/-- `get_player_available_monsters` (non-fainted team members). -/
def Battle.playerAvailable (b : Battle) : List Monster :=
  b.player_team.filter (fun m => 0 < m.current_hp)

/-- `get_enemy_available_monsters` (non-fainted team members). -/
def Battle.enemyAvailable (b : Battle) : List Monster :=
  b.enemy_team.filter (fun m => 0 < m.current_hp)

/-- The all-zero stage dictionary written by `reset_player_stat_stages` /
`reset_enemy_stat_stages`. -/
def zeroStages : String → ℤ := fun _ => 0

/-- The `TurnResult` dataclass from `models.py`. -/
structure TurnRes where
  turn_number : ℤ
  weather : String
  actions : List ActionRes
  messages : List Msg
  player_monster_fainted : Bool
  enemy_monster_fainted : Bool
  caught : Option Monster
  battle_ended : Bool
  winner : String

/-- The dataclass defaults of `TurnResult`. -/
def baseTurnRes : TurnRes where
  turn_number := 0
  weather := "clear"
  actions := []
  messages := []
  player_monster_fainted := false
  enemy_monster_fainted := false
  caught := none
  battle_ended := false
  winner := ""

/-- `DamageCalculator.get_effective_stat`: stage multiplier, then percent
buff, then percent debuff, each truncated to int, with minimum 1. -/
def get_effective_stat (b : Battle) (is_player : Bool) (stat_name : String) : ℤ :=
  match b.activeMonster is_player with
  | none => 0
  | some m =>
    let base_value := (m.stats stat_name).getD 0
    let stage := b.stagesOf is_player stat_name
    let multiplier : ℚ :=
      if stat_name = "accuracy" ∨ stat_name = "evasion" then accuracyStageMult stage
      else statStageMult stage
    let effective₀ := pyInt ((base_value : ℚ) * multiplier)
    let buff_percent := m.buff stat_name
    let debuff_percent := m.debuff stat_name
    let effective₁ :=
      if 0 < buff_percent then pyInt ((effective₀ : ℚ) * (1 + (buff_percent : ℚ) / 100))
      else effective₀
    let effective₂ :=
      if 0 < debuff_percent then pyInt ((effective₁ : ℚ) * (1 - (debuff_percent : ℚ) / 100))
      else effective₁
    max 1 effective₂

/-- `DamageCalculator.check_hit`: certain hit at accuracy ≥ 100, otherwise a
stage/buff-adjusted accuracy-vs-evasion roll. -/
def check_hit (b : Battle) (is_player : Bool) (base_accuracy : ℤ) (rng : Rng) :
    Bool × Rng :=
  if 100 ≤ base_accuracy then (true, rng)
  else
    let attacker_stages := b.stagesOf is_player
    let defender_stages := b.stagesOf (!is_player)
    let acc_mult := accuracyStageMult (attacker_stages "accuracy")
    let eva_mult := accuracyStageMult (defender_stages "evasion")
    let attacker := b.activeMonster is_player
    let defender := b.activeMonster (!is_player)
    let acc_buff := (attacker.map (fun m => m.buff "accuracy")).getD 0
    let acc_debuff := (attacker.map (fun m => m.debuff "accuracy")).getD 0
    let eva_buff := (defender.map (fun m => m.buff "evasion")).getD 0
    let eva_debuff := (defender.map (fun m => m.debuff "evasion")).getD 0
    let acc_final_mult := acc_mult * (1 + (acc_buff : ℚ) / 100) * (1 - (acc_debuff : ℚ) / 100)
    let eva_final_mult := eva_mult * (1 + (eva_buff : ℚ) / 100) * (1 - (eva_debuff : ℚ) / 100)
    let final_accuracy := (base_accuracy : ℚ) * acc_final_mult / max (1/100) eva_final_mult
    let (r, rng') := rngNext rng
    (r * 100 < final_accuracy, rng')

/-- `DamageCalculator._check_critical`: 6.25% base, 25% for moves tagged
`crit_up`, raised by an active critical-percent buff, capped at 100%. -/
def check_critical (skill : Skill) (attacker : Monster) (rng : Rng) : Bool × Rng :=
  let crit_chance : ℚ :=
    if (skill.effects.filter (fun e => e.etype = "crit_up")).isEmpty then 625/10000
    else 25/100
  let crit_buff := attacker.buff "critical"
  let crit_chance :=
    if 0 < crit_buff then min 1 (crit_chance + (crit_buff : ℚ) / 100) else crit_chance
  let (r, rng') := rngNext rng
  (r < crit_chance, rng')

/-- `DamageCalculator.get_weather_modifier`. -/
def get_weather_modifier (cfg : Config) (weather skill_type : String) : ℚ :=
  match cfg.weathers weather with
  | none => 1
  | some w => (w.power_mods skill_type).getD 1

/-- `DamageCalculator.calculate_skill_damage`: effective stats (with burn
halving physical attack), type chart, weather modifier, critical roll, STAB,
then the damage formula with the random factor enabled.  Returns
`((damage, is_critical, effectiveness), rng)`. -/
def calculate_skill_damage (cfg : Config) (b : Battle) (attacker defender : Monster)
    (skill : Skill) (is_player : Bool) (rng : Rng) : (ℤ × Bool × ℚ) × Rng :=
  let category := skill.category
  let power := skill.power
  let skill_type := skill.stype
  let attack_stat :=
    if category = "physical" then get_effective_stat b is_player "attack"
    else get_effective_stat b is_player "sp_attack"
  let defense_stat :=
    if category = "physical" then get_effective_stat b (!is_player) "defense"
    else get_effective_stat b (!is_player) "sp_defense"
  let attack_stat :=
    if category = "physical" ∧ attacker.status = some "burn" then
      pyInt ((attack_stat : ℚ) * (1/2))
    else attack_stat
  let entry := cfg.types skill_type
  let effectiveness := get_type_effectiveness entry.strong_against entry.weak_against
    defender.types
  let weather_mod := get_weather_modifier cfg b.weather skill_type
  let (is_critical, rng₁) := check_critical skill attacker rng
  let is_stab := skill_type ∈ attacker.types
  let (dmg_pair, rng₂) := calculate_damage attacker.level attack_stat defense_stat power
    effectiveness weather_mod is_critical is_stab true rng₁
  ((dmg_pair.1, is_critical, effectiveness), rng₂)

/-- `BattleSystem._execute_switch`: find the named team member, reject a
missing or fainted target, otherwise change the active index and reset that
side's stat stages. -/
def execute_switch (b : Battle) (switch_to_id : String) (is_player : Bool) :
    Battle × ActionRes :=
  let team := if is_player then b.player_team else b.enemy_team
  match team.findIdx? (fun m => m.instance_id = switch_to_id) with
  | none =>
    (b, { baseActionRes with success := false, messages := [Msg.switchFailNotFound] })
  | some idx =>
    let new_monster := (team.get? idx).getD baseMonster
    if new_monster.current_hp ≤ 0 then
      (b, { baseActionRes with success := false, messages := [Msg.switchFailFainted] })
    else
      let b' :=
        if is_player then
          { b with player_active_index := idx, player_stat_stages := zeroStages }
        else { b with enemy_active_index := idx, enemy_stat_stages := zeroStages }
      (b', { baseActionRes with messages := [Msg.switchOut, Msg.switchIn] })

/-- `BattleSystem._execute_item`: heal / cure-status / full-restore items on
the acting side's monster; unknown ids fail. -/
def execute_item (cfg : Config) (b : Battle) (item_id : String) (is_player : Bool) :
    Battle × ActionRes :=
  match cfg.items item_id with
  | none =>
    (b, { baseActionRes with success := false, messages := [Msg.itemMissing] })
  | some item =>
    match b.activeMonster is_player with
    | none => (b, { baseActionRes with success := false })
    | some target =>
      if item.itype = "heal" then
        let r := apply_item_heal target item.heal_amount
        (b.setActiveMonster is_player r.1,
          { baseActionRes with messages := [Msg.itemUsed item_id] ++ r.2 })
      else if item.itype = "cure_status" then
        if target.status.isSome then
          (b.setActiveMonster is_player { target with status := none, status_turns := 0 },
            { baseActionRes with messages := [Msg.itemUsed item_id, Msg.statusCured] })
        else
          (b, { baseActionRes with messages := [Msg.itemUsed item_id, Msg.noStatus] })
      else if item.itype = "full_restore" then
        (b.setActiveMonster is_player
          { target with current_hp := target.max_hp, status := none, status_turns := 0 },
          { baseActionRes with messages := [Msg.itemUsed item_id, Msg.fullyRestored] })
      else (b, { baseActionRes with messages := [Msg.itemUsed item_id] })

/-- `BattleSystem._process_flee`: the clamped speed-ratio formula; an absent
monster on either side makes fleeing succeed outright. -/
def process_flee (b : Battle) (rng : Rng) : (Bool × Msg) × Rng :=
  if ¬ b.can_flee then ((false, Msg.fleeBlocked), rng)
  else
    match b.player_monster, b.enemy_monster with
    | some pm, some em =>
      let player_speed := (pm.stats "speed").getD 50
      let enemy_speed := (em.stats "speed").getD 50
      let flee_chance : ℚ :=
        ((player_speed : ℚ) * 32 / ((max 1 enemy_speed : ℤ) : ℚ) + 30) / 100
      let flee_chance := min (95/100) (max (1/10) flee_chance)
      let (r, rng') := rngNext rng
      if r < flee_chance then ((true, Msg.fleeSuccess), rng')
      else ((false, Msg.fleeFail), rng')
    | _, _ => ((true, Msg.fleeSuccess), rng)

/-- The HP-percentage used by `_process_catch`
(`max(0.01, current/max)` when the stats-HP is positive, else 1.0). -/
def catch_hp_percent (current_hp max_hp : ℤ) : ℚ :=
  if 0 < max_hp then max (1/100) ((current_hp : ℚ) / (max_hp : ℚ)) else 1

/-- The capture-chance computation of `BattleSystem._process_catch`
(`battle_system.py` lines 658-689): linear HP modifier between the
configured min/max multipliers, ball bonus, player buff, then the
configured min/max clamp. -/
def catch_chance_value (cc : CatchConfig) (base_catch_rate ball_bonus buff_multiplier : ℚ)
    (current_hp max_hp : ℤ) : ℚ :=
  let hp_percent := catch_hp_percent current_hp max_hp
  let hp_modifier := cc.hp_max - (cc.hp_max - cc.hp_min) * hp_percent
  let chance := base_catch_rate * hp_modifier * ball_bonus * buff_multiplier
  max cc.rate_min (min cc.rate_max chance)

/-- The result record of `_process_catch`. -/
structure CatchRes where
  success : Bool
  messages : List Msg
  caught : Option Monster

/-- `BattleSystem._process_catch`: guard chain (catch allowed, target
present, ball chosen, ball valid, ball owned), then the capture-chance
formula and a single success roll.  The external inventory debit is a
side-effect outside the battle state. -/
def process_catch (cfg : Config) (pm : Option PlayerMgr) (b : Battle)
    (ball_id : String) (rng : Rng) : CatchRes × Rng :=
  if ¬ b.can_catch then (⟨false, [Msg.catchBlocked], none⟩, rng)
  else
    match b.enemy_monster with
    | none => (⟨false, [Msg.catchNoTarget], none⟩, rng)
    | some enemy =>
      if ball_id = "" then (⟨false, [Msg.catchNoBall], none⟩, rng)
      else
        match cfg.items ball_id with
        | none => (⟨false, [Msg.catchInvalidBall], none⟩, rng)
        | some ball =>
          if ball.itype ≠ "capture" then (⟨false, [Msg.catchInvalidBall], none⟩, rng)
          else
            let ball_missing : Bool :=
              match pm with
              | some mgr => decide (b.player_id ≠ "") && ! mgr.has_ball ball_id
              | none => false
            if ball_missing then (⟨false, [Msg.catchMissingBall], none⟩, rng)
            else
              let cc := cfg.catch_config
              let base_catch_rate := cc.rarity_rates enemy.rarity
              let current_hp := enemy.current_hp
              let max_hp := (enemy.stats "hp").getD 100
              let ball_bonus := (cc.ball_multipliers ball_id).getD ball.capture_rate
              let buff_multiplier :=
                match pm with
                | some mgr => if b.player_id ≠ "" then mgr.catch_buff else 1
                | none => 1
              let chance := catch_chance_value cc base_catch_rate ball_bonus
                buff_multiplier current_hp max_hp
              let (r, rng') := rngNext rng
              if r < chance then (⟨true, [Msg.catchSuccess], some enemy⟩, rng')
              else (⟨false, [Msg.catchFail], none⟩, rng')

/-- The skill priority read by `_determine_action_order`: from move data for
skill actions (default 0 when the move is unknown), 0 otherwise. -/
def move_priority (cfg : Config) (a : BattleAction) : ℤ :=
  if a.action_type = ActionType.skill then
    ((cfg.skills a.skill_id).map Skill.priority).getD 0
  else 0

/-- The effective speed used for ordering inside `_determine_action_order`:
stage/buff-adjusted speed, halved (truncated) for a paralyzed monster. -/
def order_speed (b : Battle) (is_player : Bool) : ℤ :=
  let sp := get_effective_stat b is_player "speed"
  match (if is_player then b.player_monster else b.enemy_monster) with
  | some m => if m.status = some "paralyze" then pyInt ((sp : ℚ) * (1/2)) else sp
  | none => sp

/-- `BattleSystem._determine_action_order`: switch first (the player's switch
wins a double switch), then higher move priority, then higher effective speed
(halved by paralysis), then a coin flip. -/
def determine_action_order (cfg : Config) (b : Battle)
    (player_action enemy_action : BattleAction) (rng : Rng) :
    (BattleAction × BattleAction × Bool) × Rng :=
  if player_action.action_type = ActionType.switch then
    ((player_action, enemy_action, true), rng)
  else if enemy_action.action_type = ActionType.switch then
    ((enemy_action, player_action, false), rng)
  else
    let player_priority := move_priority cfg player_action
    let enemy_priority := move_priority cfg enemy_action
    if player_priority ≠ enemy_priority then
      if enemy_priority < player_priority then ((player_action, enemy_action, true), rng)
      else ((enemy_action, player_action, false), rng)
    else
      let player_speed := order_speed b true
      let enemy_speed := order_speed b false
      if player_speed = enemy_speed then
        let (r, rng') := rngNext rng
        if r < 1/2 then ((player_action, enemy_action, true), rng')
        else ((enemy_action, player_action, false), rng')
      else if enemy_speed < player_speed then ((player_action, enemy_action, true), rng)
      else ((enemy_action, player_action, false), rng)

/-- `EffectProcessor._apply_status_effect` on the side holding the target:
skips a fainted or already-statused target and type-immune targets. -/
def apply_status_effect_b (b : Battle) (target_is_player : Bool) (status : String) :
    Battle × List Msg :=
  match b.activeMonster target_is_player with
  | none => (b, [])
  | some d =>
    if d.current_hp ≤ 0 ∨ d.status.isSome then (b, [])
    else
      let immune : Bool :=
        match statusImmunity status with
        | some t => d.types.contains t
        | none => false
      if immune then (b, [])
      else
        (b.setActiveMonster target_is_player { d with status := some status },
          [Msg.statusInflicted status])

/-- `EffectProcessor._apply_stat_stage_change`: parse the stat from the
effect type, default magnitude ±1, clamp to [-6, 6], message only on an
actual change. -/
def apply_stat_stage_change (b : Battle) (is_player : Bool) (effect : EffectSpec) :
    Battle × List Msg :=
  let etype := effect.etype
  let is_up := pyEndsWith etype "_up"
  let stat_name := pyReplace (pyReplace etype "_up" "") "_down" ""
  let stages := if effect.value ≠ 0 then effect.value else if is_up then 1 else -1
  let target_is_self := effect.target.getD "enemy" = "self"
  let side_is_player := if target_is_self then is_player else !is_player
  if stat_name ∉ stageKeys then (b, [])
  else
    let old_stage := b.stagesOf side_is_player stat_name
    let new_stage := max (-6) (min 6 (old_stage + stages))
    let b' := b.setStage side_is_player stat_name new_stage
    (b', if new_stage ≠ old_stage then [Msg.statChanged stat_name is_up] else [])

/-- `EffectProcessor._apply_regen`: last application wins, both percent and
duration overwritten. -/
def apply_regen_m (m : Monster) (value : ℤ) (effect : EffectSpec) : Monster × List Msg :=
  let duration := effect.duration.getD 3
  ({ m with regen := value, regen_turns := duration }, [Msg.regenApplied duration])

/-- `EffectProcessor._apply_shield`: percent-of-max-HP pool added to the
existing shield, duration overwritten. -/
def apply_shield_m (m : Monster) (value : ℤ) (effect : EffectSpec) : Monster × List Msg :=
  let duration := effect.duration.getD 3
  let shield_amount := pyInt ((m.max_hp : ℚ) * (value : ℚ) / 100)
  ({ m with shield := m.shield + shield_amount, shield_turns := duration },
    [Msg.shieldApplied shield_amount duration])

/-- `EffectProcessor._apply_percent_buff`: additive percent accumulation with
max-refreshed duration. -/
def apply_percent_buff_m (m : Monster) (etype : String) (value : ℤ)
    (effect : EffectSpec) : Monster × List Msg :=
  let stat_name := pyReplace etype "_up" ""
  let duration := effect.duration.getD 3
  ({ m with
      buff := Function.update m.buff stat_name (m.buff stat_name + value),
      buff_turns := Function.update m.buff_turns stat_name
        (max (m.buff_turns stat_name) duration) },
    [Msg.percentBuff stat_name value duration])

/-- `EffectProcessor._apply_percent_debuff`: symmetric to the buff case. -/
def apply_percent_debuff_m (m : Monster) (etype : String) (value : ℤ)
    (effect : EffectSpec) : Monster × List Msg :=
  let stat_name := pyReplace etype "_down" ""
  let duration := effect.duration.getD 3
  ({ m with
      debuff := Function.update m.debuff stat_name (m.debuff stat_name + value),
      debuff_turns := Function.update m.debuff_turns stat_name
        (max (m.debuff_turns stat_name) duration) },
    [Msg.percentDebuff stat_name value duration])

/-- `EffectProcessor._apply_confuse`: set flag and duration on a target that
is alive and not already confused. -/
def apply_confuse_m (m : Monster) (effect : EffectSpec) : Monster × List Msg :=
  if m.current_hp ≤ 0 ∨ m.confused then (m, [])
  else
    let duration := effect.duration.getD 3
    ({ m with confused := true, confused_turns := duration },
      [Msg.confuseApplied duration])

/-- The Python list of percent-buff effect types
(`effect_processor.py` lines 135-138). -/
def percentBuffTypes : List String :=
  ["attack_up", "defense_up", "sp_attack_up", "sp_defense_up",
    "speed_up", "accuracy_up", "evasion_up", "critical_up"]

/-- The Python list of percent-debuff effect types
(`effect_processor.py` lines 144-147). -/
def percentDebuffTypes : List String :=
  ["attack_down", "defense_down", "sp_attack_down", "sp_defense_down",
    "speed_down", "accuracy_down", "evasion_down"]

/-- Helper: apply a monster-level effect to the actor side and write back. -/
def onActor (b : Battle) (is_player : Bool) (f : Monster → Monster × List Msg) :
    Battle × List Msg :=
  match b.activeMonster is_player with
  | none => (b, [])
  | some a =>
    let r := f a
    (b.setActiveMonster is_player r.1, r.2)

/-- `EffectProcessor._process_single_effect`: the elif dispatch chain, in
source order.  Note that the `endswith("_up")/endswith("_down")` branch
precedes the percent-buff/debuff branches, so every `<stat>_up`/`<stat>_down`
type is dispatched to the stat-stage handler and the percent branches are
unreachable. -/
def process_single_effect (b : Battle) (is_player : Bool) (effect : EffectSpec) :
    Battle × List Msg :=
  let etype := effect.etype
  let value := effect.value
  if etype ∈ statusNames then apply_status_effect_b b (!is_player) etype
  else if pyEndsWith etype "_up" ∨ pyEndsWith etype "_down" then
    apply_stat_stage_change b is_player effect
  else if etype = "heal" then onActor b is_player (fun a => apply_heal_effect a value)
  else if etype = "regen" then onActor b is_player (fun a => apply_regen_m a value effect)
  else if etype = "shield" then onActor b is_player (fun a => apply_shield_m a value effect)
  else if etype = "drain" then
    let r := onActor b is_player (fun a => ({ a with drain_percent := value }, []))
    (r.1, [Msg.drainReady])
  else if etype ∈ percentBuffTypes then
    onActor b is_player (fun a => apply_percent_buff_m a etype value effect)
  else if etype ∈ percentDebuffTypes then
    onActor b (!is_player) (fun d => apply_percent_debuff_m d etype value effect)
  else if etype = "confuse" then
    onActor b (!is_player) (fun d => apply_confuse_m d effect)
  else (b, [])

/-- `EffectProcessor.process_skill_effects`: each effect is independently
chance-rolled (skip when `r*100 > chance`) and then dispatched. -/
def process_effects_step (is_player : Bool) (acc : Battle × List Msg × Rng)
    (effect : EffectSpec) : Battle × List Msg × Rng :=
  let (b₀, msgs, rng₀) := acc
  let (r, rng₁) := rngNext rng₀
  if effect.chance < r * 100 then (b₀, msgs, rng₁)
  else
    let (b₁, ms) := process_single_effect b₀ is_player effect
    (b₁, msgs ++ ms, rng₁)

def process_skill_effects (b : Battle) (is_player : Bool) (effects : List EffectSpec)
    (rng : Rng) : Battle × List Msg × Rng :=
  effects.foldl (process_effects_step is_player) (b, ([] : List Msg), rng)

/-- `StatusHandler.apply_status_damage` over both active monsters, player
side first. -/
def apply_status_damage_b (b : Battle) : Battle × List Msg :=
  let step := fun (acc : Battle × List Msg) (is_player : Bool) =>
    match acc.1.activeMonster is_player with
    | none => acc
    | some m =>
      let r := apply_status_damage_one m
      (acc.1.setActiveMonster is_player r.1, acc.2 ++ r.2)
  step (step (b, []) true) false

/-- The per-monster body of `StatusHandler.apply_regen_effects`: regen,
shield decay, confusion decay, buff/debuff decay, skipping fainted monsters. -/
def apply_regen_effects_one (m : Monster) : Monster × List Msg :=
  if m.current_hp ≤ 0 then (m, [])
  else
    let r₁ := process_regen_one m
    let r₂ := process_shield_decay_one r₁.1
    let r₃ := process_confuse_decay_one r₂.1
    let r₄ := process_buff_decay_one r₃.1
    (r₄.1, r₁.2 ++ r₂.2 ++ r₃.2 ++ r₄.2)

/-- `StatusHandler.apply_regen_effects` over both active monsters. -/
def apply_regen_effects_b (b : Battle) : Battle × List Msg :=
  let step := fun (acc : Battle × List Msg) (is_player : Bool) =>
    match acc.1.activeMonster is_player with
    | none => acc
    | some m =>
      let r := apply_regen_effects_one m
      (acc.1.setActiveMonster is_player r.1, acc.2 ++ r.2)
  step (step (b, []) true) false

/-- `WeatherSystem.apply_weather_damage` over both active monsters. -/
def apply_weather_damage_b (cfg : Config) (b : Battle) : Battle × List Msg :=
  match cfg.weathers b.weather with
  | none => (b, [])
  | some w =>
    if w.dot_damage ≤ 0 then (b, [])
    else
      let step := fun (acc : Battle × List Msg) (is_player : Bool) =>
        match acc.1.activeMonster is_player with
        | none => acc
        | some m =>
          let immune := m.types.any (fun t => t ∈ w.dot_immune_types)
          let r := apply_weather_dot_one m w.dot_damage immune
          (acc.1.setActiveMonster is_player r.1, acc.2 ++ r.2)
      step (step (b, []) true) false

/-- `WeatherSystem.process_weather_turn`: finite weather counts down and
reverts to "clear". -/
def process_weather_turn (b : Battle) : Battle × List Msg :=
  if 0 < b.weather_turns then
    let wt := b.weather_turns - 1
    if wt ≤ 0 then
      ({ b with weather_turns := wt, weather := "clear" }, [Msg.weatherCleared])
    else ({ b with weather_turns := wt }, [])
  else (b, [])

/-- `BattleSystem._process_turn_end`: weather damage, status damage, regen
and decay effects, weather turn decay, in that order. -/
def process_turn_end (cfg : Config) (b : Battle) : Battle × List Msg :=
  let r₁ := apply_weather_damage_b cfg b
  let r₂ := apply_status_damage_b r₁.1
  let r₃ := apply_regen_effects_b r₂.1
  let r₄ := process_weather_turn r₃.1
  (r₄.1, r₁.2 ++ r₂.2 ++ r₃.2 ++ r₄.2)

/-- A model of Python `random.choice(xs)` driven by one stream draw. -/
def randomChoice (xs : List String) (rng : Rng) : String × Rng :=
  let (r, rng') := rngNext rng
  (((xs.get? (pyInt (r * xs.length)).toNat).getD ""), rng')

/-- `AIController._boss_ai_select_skill`: argmax of
`effectiveness × power` with strict improvement (first maximum wins),
falling back to a random choice when no positive score exists. -/
def boss_ai_select_skill (cfg : Config) (b : Battle) (skills : List String)
    (rng : Rng) : String × Rng :=
  match b.player_monster with
  | none => randomChoice skills rng
  | some pm =>
    let best := skills.foldl
      (fun (acc : Option String × ℚ) skill_id =>
        match cfg.skills skill_id with
        | none => acc
        | some skill =>
          let entry := cfg.types skill.stype
          let effectiveness := get_type_effectiveness entry.strong_against
            entry.weak_against pm.types
          let score := effectiveness * (skill.power : ℚ)
          if acc.2 < score then (some skill_id, score) else acc)
      ((none : Option String), (0 : ℚ))
    match best.1 with
    | some s => (s, rng)
    | none => randomChoice skills rng

/-- `AIController.generate_enemy_action`: random move for wild monsters,
the boss heuristic for boss battles, `struggle` when the move list is empty. -/
def generate_enemy_action (cfg : Config) (b : Battle) (rng : Rng) :
    BattleAction × Rng :=
  match b.enemy_monster with
  | none => ({ baseAction with action_type := ActionType.skill, actor_id := "" }, rng)
  | some em =>
    let skills := if em.skills.isEmpty then ["struggle"] else em.skills
    let (skill_id, rng') :=
      if b.battle_type = BattleType.boss then boss_ai_select_skill cfg b skills rng
      else randomChoice skills rng
    ({ baseAction with
        action_type := ActionType.skill
        actor_id := em.instance_id
        target_id := ((b.player_monster.map Monster.instance_id).getD "")
        skill_id := skill_id }, rng')

/-- The sleep/freeze/paralysis gate at the top of
`BattleSystem._execute_skill` (`battle_system.py` lines 399-415).  Returns
the updated battle, whether the attack proceeds, the emitted messages and
the remaining stream. -/
def skill_status_gate (b : Battle) (is_player : Bool) (rng : Rng) :
    Battle × Bool × List Msg × Rng :=
  match b.activeMonster is_player with
  | none => (b, true, [], rng)
  | some attacker =>
    match attacker.status with
    | none => (b, true, [], rng)
    | some s =>
      if s = "sleep" ∨ s = "freeze" then
        let wake_chance : ℚ := if s = "sleep" then 33/100 else 20/100
        let (r, rng') := rngNext rng
        if r < wake_chance then
          (b.setActiveMonster is_player { attacker with status := none }, true,
            [Msg.statusWokeUp], rng')
        else (b, false, [Msg.statusCantMove], rng')
      else if s = "paralyze" then
        let (r, rng') := rngNext rng
        if r < 25/100 then (b, false, [Msg.paralyzedCantMove], rng')
        else (b, true, [], rng')
      else (b, true, [], rng)

/-- The damage phase of `BattleSystem._execute_skill` for a damaging move
(`battle_system.py` lines 438-489): damage computation, shield absorption,
HP application, drain heal, faint detection.  Returns the updated battle,
the raw damage (stored in the result before absorption), the critical flag,
the effectiveness, whether the target fainted, the messages, and the
remaining stream. -/
def skill_damage_phase (cfg : Config) (b : Battle) (attacker defender : Monster)
    (skill : Skill) (is_player : Bool) (rng : Rng) :
    Battle × ℤ × Bool × ℚ × Bool × List Msg × Rng :=
  let (dmg_triple, rng₁) := calculate_skill_damage cfg b attacker defender skill
    is_player rng
  let damage := dmg_triple.1
  let is_critical := dmg_triple.2.1
  let effectiveness := dmg_triple.2.2
  let shield_res := apply_skill_damage defender damage
  let defender' := shield_res.1
  let damage_after := shield_res.2.1
  let shield_msgs := shield_res.2.2
  let b₁ := b.setActiveMonster (!is_player) defender'
  let crit_msgs := if is_critical then [Msg.criticalHit] else []
  let eff_msgs :=
    if 1 < effectiveness then [Msg.superEffective]
    else if effectiveness < 1 then [Msg.notEffective]
    else []
  let dealt_msgs := [Msg.dealtDamage damage_after]
  let attacker₁ := (b₁.activeMonster is_player).getD attacker
  let drain_res := apply_drain_heal attacker₁ damage_after
  let b₂ := b₁.setActiveMonster is_player drain_res.1
  let fainted := defender'.current_hp ≤ 0
  let faint_msgs := if fainted then [Msg.targetFainted] else []
  (b₂, damage, is_critical, effectiveness, fainted,
    shield_msgs ++ crit_msgs ++ eff_msgs ++ dealt_msgs ++ drain_res.2 ++ faint_msgs,
    rng₁)

/-- `BattleSystem._execute_skill`: status gate, skill lookup, hit check,
damage phase for damaging moves, then secondary effects. -/
def execute_skill (cfg : Config) (b : Battle) (skill_id : String) (is_player : Bool)
    (rng : Rng) : Battle × ActionRes × Rng :=
  if (b.activeMonster is_player).isNone ∨ (b.activeMonster (!is_player)).isNone then
    (b, { baseActionRes with success := false }, rng)
  else
    let gate := skill_status_gate b is_player rng
    let b₁ := gate.1
    let proceed := gate.2.1
    let gate_msgs := gate.2.2.1
    let rng₁ := gate.2.2.2
    if ¬ proceed then (b₁, { baseActionRes with messages := gate_msgs }, rng₁)
    else
      match cfg.skills skill_id with
      | none =>
        (b₁, { baseActionRes with
            success := false, messages := gate_msgs ++ [Msg.skillMissing] }, rng₁)
      | some skill =>
        let msgs₀ := gate_msgs ++ [Msg.usedSkill skill_id]
        let hit := check_hit b₁ is_player skill.accuracy rng₁
        let rng₂ := hit.2
        if ¬ hit.1 then
          (b₁, { baseActionRes with
              messages := msgs₀ ++ [Msg.missed], is_missed := true }, rng₂)
        else
          let attacker := (b₁.activeMonster is_player).getD baseMonster
          let defender := (b₁.activeMonster (!is_player)).getD baseMonster
          let damaging := 0 < skill.power ∧
            (skill.category = "physical" ∨ skill.category = "special")
          let phase :=
            if damaging then
              skill_damage_phase cfg b₁ attacker defender skill is_player rng₂
            else (b₁, 0, false, 1, false, [], rng₂)
          let b₂ := phase.1
          let damage := phase.2.1
          let is_critical := phase.2.2.1
          let effectiveness := phase.2.2.2.1
          let fainted := phase.2.2.2.2.1
          let dmg_msgs := phase.2.2.2.2.2.1
          let rng₃ := phase.2.2.2.2.2.2
          let eff := process_skill_effects b₂ is_player skill.effects rng₃
          let b₃ := eff.1
          let effect_msgs := eff.2.1
          let rng₄ := eff.2.2
          (b₃,
            { baseActionRes with
                messages := msgs₀ ++ dmg_msgs ++ effect_msgs
                damage := damage
                is_critical := is_critical
                effectiveness := effectiveness
                target_fainted := fainted },
            rng₄)

/-- `BattleSystem._calculate_battle_rewards`: summed experience over the
enemy team, coin reward, and independent boss drop rolls. -/
def calculate_battle_rewards (cfg : Config) (b : Battle) (rng : Rng) :
    Battle × Rng :=
  let player_level := ((b.player_monster.map Monster.level).getD 1)
  let total_exp := b.enemy_team.foldl
    (fun acc enemy =>
      let base_exp := (cfg.monsters_base_exp enemy.template_id).getD 100
      acc + calculate_exp_gain base_exp enemy.level player_level b.enemy_is_wild
        (b.battle_type = BattleType.boss)) 0
  let base_coins := b.enemy_team.foldl (fun acc e => acc + e.level * 10) 50
  let coins := if b.battle_type = BattleType.boss then base_coins * 5 else base_coins
  let drops_rng :=
    match b.boss_drops with
    | some drops =>
      if b.battle_type = BattleType.boss then
        drops.foldl
          (fun (acc : List (String × ℤ) × Rng) (d : String × ℚ × ℤ) =>
            let (r, rng') := rngNext acc.2
            if r < d.2.1 then (acc.1 ++ [(d.1, d.2.2)], rng') else (acc.1, rng'))
          (([] : List (String × ℤ)), rng)
      else ([], rng)
    | none => ([], rng)
  ({ b with
      exp_gained := total_exp
      coins_gained := coins
      items_dropped := drops_rng.1 }, drops_rng.2)

/-- `BattleSystem._check_battle_end`: terminal detection for either side,
reward computation on a player win, faint flags and the automatic
replacement of a fainted enemy monster (which does not touch the stat
stages).  The boolean result is the Python return value. -/
def check_battle_end (cfg : Config) (b : Battle) (res : TurnRes) (rng : Rng) :
    Battle × TurnRes × Bool × Rng :=
  if b.playerAvailable.isEmpty then
    ({ b with is_active := false },
      { res with
          battle_ended := true, winner := "enemy",
          messages := res.messages ++ [Msg.allPlayerFainted] }, true, rng)
  else if b.enemyAvailable.isEmpty then
    let rw := calculate_battle_rewards cfg b rng
    ({ rw.1 with is_active := false },
      { res with
          battle_ended := true, winner := "player",
          messages := res.messages ++ [Msg.battleWon] }, true, rw.2)
  else
    let res₁ :=
      match b.player_monster with
      | some pmon =>
        if pmon.current_hp ≤ 0 then { res with player_monster_fainted := true } else res
      | none => res
    match b.enemy_monster with
    | some emon =>
      if emon.current_hp ≤ 0 then
        let res₂ := { res₁ with enemy_monster_fainted := true }
        match b.enemy_team.findIdx? (fun m => 0 < m.current_hp) with
        | some i =>
          ({ b with enemy_active_index := i },
            { res₂ with
                messages := res₂.messages ++
                  [Msg.enemySent (((b.enemy_team.get? i).getD baseMonster).name)] },
            false, rng)
        | none => (b, res₂, false, rng)
      else (b, res₁, false, rng)
    | none => (b, res₁, false, rng)

/-- `BattleSystem._execute_action` dispatch. -/
def execute_action (cfg : Config) (b : Battle) (action : BattleAction)
    (is_player : Bool) (rng : Rng) : Battle × ActionRes × Rng :=
  match action.action_type with
  | ActionType.skill => execute_skill cfg b action.skill_id is_player rng
  | ActionType.switch =>
    let r := execute_switch b action.switch_to_id is_player
    (r.1, r.2, rng)
  | ActionType.item =>
    let r := execute_item cfg b action.item_id is_player
    (r.1, r.2, rng)
  | _ => (b, baseActionRes, rng)

/-- `BattleSystem.process_turn`: the per-turn orchestration.  The turn
counter advances first; flee and capture resolve immediately; otherwise the
AI chooses, order is resolved, both actions execute with battle-end checks
between, and end-of-turn effects run with a final check. -/
def process_turn (cfg : Config) (pm : Option PlayerMgr) (b : Battle)
    (player_action : BattleAction) (rng : Rng) : Battle × TurnRes × Rng :=
  let b := { b with turn_count := b.turn_count + 1 }
  let res := { baseTurnRes with turn_number := b.turn_count, weather := b.weather }
  if player_action.action_type = ActionType.flee then
    let fr := process_flee b rng
    let res := { res with messages := [fr.1.2] }
    if fr.1.1 then
      ({ b with is_active := false },
        { res with battle_ended := true, winner := "flee" }, fr.2)
    else (b, res, fr.2)
  else if player_action.action_type = ActionType.catch then
    let cr := process_catch cfg pm b player_action.ball_id rng
    let res := { res with messages := cr.1.messages }
    if cr.1.success then
      ({ b with is_active := false },
        { res with battle_ended := true, winner := "catch", caught := cr.1.caught },
        cr.2)
    else (b, res, cr.2)
  else
    let ea := generate_enemy_action cfg b rng
    let enemy_action := ea.1
    let ord := determine_action_order cfg b player_action enemy_action ea.2
    let first_action := ord.1.1
    let second_action := ord.1.2.1
    let first_is_player := ord.1.2.2
    let ex₁ := execute_action cfg b first_action first_is_player ord.2
    let res₁ := { res with
        messages := res.messages ++ ex₁.2.1.messages
        actions := res.actions ++ [ex₁.2.1] }
    let ck₁ := check_battle_end cfg ex₁.1 res₁ ex₁.2.2
    if ck₁.2.2.1 then (ck₁.1, ck₁.2.1, ck₁.2.2.2)
    else
      let ex₂ := execute_action cfg ck₁.1 second_action (!first_is_player) ck₁.2.2.2
      let res₂ := { ck₁.2.1 with
          messages := ck₁.2.1.messages ++ ex₂.2.1.messages
          actions := ck₁.2.1.actions ++ [ex₂.2.1] }
      let ck₂ := check_battle_end cfg ex₂.1 res₂ ex₂.2.2
      if ck₂.2.2.1 then (ck₂.1, ck₂.2.1, ck₂.2.2.2)
      else
        let te := process_turn_end cfg ck₂.1
        let res₃ := { ck₂.2.1 with messages := ck₂.2.1.messages ++ te.2 }
        let ck₃ := check_battle_end cfg te.1 res₃ ck₂.2.2.2
        (ck₃.1, ck₃.2.1, ck₃.2.2.2)

/-- Overwrite only the confusion fields of a monster. -/
def setConfusion (m : Monster) (c : Bool) (t : ℤ) : Monster :=
  { m with confused := c, confused_turns := t }

/-- Erase the confusion fields of a monster: two monsters are "identical
except for the confusion flag and remaining confusion turns" exactly when
their erasures are equal. -/
def eraseConf (m : Monster) : Monster := { m with confused := false, confused_turns := 0 }

/-- Battles identical except for confusion flags/turns of team members:
every field agrees, and the teams agree pointwise after erasing confusion. -/
def StateRel (b b' : Battle) : Prop :=
  b'.battle_type = b.battle_type ∧ b'.player_id = b.player_id
  ∧ b'.player_team.map eraseConf = b.player_team.map eraseConf
  ∧ b'.player_active_index = b.player_active_index
  ∧ b'.enemy_team.map eraseConf = b.enemy_team.map eraseConf
  ∧ b'.enemy_active_index = b.enemy_active_index
  ∧ b'.enemy_is_wild = b.enemy_is_wild ∧ b'.boss_drops = b.boss_drops
  ∧ b'.weather = b.weather ∧ b'.weather_turns = b.weather_turns
  ∧ b'.turn_count = b.turn_count ∧ b'.is_active = b.is_active
  ∧ b'.can_flee = b.can_flee ∧ b'.can_catch = b.can_catch
  ∧ b'.player_stat_stages = b.player_stat_stages
  ∧ b'.enemy_stat_stages = b.enemy_stat_stages
  ∧ b'.exp_gained = b.exp_gained ∧ b'.coins_gained = b.coins_gained
  ∧ b'.items_dropped = b.items_dropped

/-- True for every message except the confusion infliction and expiry
events. -/
def nonConfusionEvent : Msg → Bool
  | Msg.confuseApplied _ => false
  | Msg.confuseExpired => false
  | _ => true

/-- Two action results agree on every scalar outcome (success, damage,
critical flag, effectiveness, miss flag, faint flag) and on every message
other than the confusion infliction/expiry events. -/
def sameOutcome (r r' : ActionRes) : Prop :=
  r'.success = r.success ∧ r'.damage = r.damage ∧ r'.is_critical = r.is_critical
  ∧ r'.effectiveness = r.effectiveness ∧ r'.is_missed = r.is_missed
  ∧ r'.target_fainted = r.target_fainted
  ∧ r'.messages.filter nonConfusionEvent = r.messages.filter nonConfusionEvent

/- Concrete fixtures for witnesses and counterexamples. -/

/-- A concrete stat block. -/
def sampleStats : String → Option ℤ := fun s =>
  if s = "attack" then some 50 else if s = "defense" then some 50
  else if s = "sp_attack" then some 40 else if s = "sp_defense" then some 40
  else if s = "speed" then some 30 else if s = "hp" then some 100 else none

/-- A concrete healthy monster. -/
def sampleMonster : Monster :=
  { baseMonster with instance_id := "a1", name := "alpha", stats := sampleStats }

/-- A concrete wild one-on-one battle. -/
def sampleBattle : Battle where
  battle_type := BattleType.wild
  player_id := "p"
  player_team := [sampleMonster]
  player_active_index := 0
  enemy_team := [{ sampleMonster with instance_id := "e1", name := "wildling" }]
  enemy_active_index := 0
  enemy_is_wild := true
  boss_drops := none
  weather := "clear"
  weather_turns := 0
  turn_count := 0
  is_active := true
  can_flee := true
  can_catch := true
  player_stat_stages := zeroStages
  enemy_stat_stages := zeroStages
  exp_gained := 0
  coins_gained := 0
  items_dropped := []

/-- `sampleBattle` with the enemy marked confused for two turns and nothing
else changed. -/
def confusedEnemyBattle : Battle :=
  { sampleBattle with
    enemy_team :=
      [{ sampleMonster with
         instance_id := "e1", name := "wildling", confused := true,
         confused_turns := 2 }] }

/-- A configuration with no entries (every id unknown). -/
def emptyConfig : Config where
  skills := fun _ => none
  items := fun _ => none
  weathers := fun _ => none
  types := fun _ => ⟨[], []⟩
  monsters_base_exp := fun _ => none
  catch_config := ⟨fun _ => 1/2, fun _ => none, 5/100, 95/100, 0, 1⟩

/-- A configuration whose only skill is a 40-power physical tackle. -/
def tackleConfig : Config :=
  { emptyConfig with
    skills := fun i =>
      if i = "tackle" then some { baseSkill with name := "tackle", power := 40 }
      else none }

/-- A boss battle around `sampleBattle`: flee and capture disallowed. -/
def sampleBossBattle : Battle :=
  { sampleBattle with
      battle_type := BattleType.boss
      can_flee := false
      can_catch := false
      turn_count := 7 }

/-- A timed percentage-buff effect spec: `attack_up`, 30%, self. -/
def atkUpEffect : EffectSpec :=
  { baseEffect with etype := "attack_up", value := 30, target := some "self" }

/-- A timed percentage-buff effect spec: `critical_up`, 30%, self. -/
def critUpEffect : EffectSpec :=
  { baseEffect with etype := "critical_up", value := 30, target := some "self" }

/-- A concrete attacker carrying a 50% drain flag at 10/100 HP. -/
def drainAttacker : Monster :=
  { baseMonster with current_hp := 10, max_hp := 100, drain_percent := 50 }

/-- A concrete defender protected by a 60-point shield. -/
def shieldedDefender : Monster := { baseMonster with shield := 60 }

/-- The flee-success probability of §4.6: speed-ratio formula clamped to
`[0.10, 0.95]`, with the source's `.get("speed", 50)` defaults. -/
def flee_chance_formula (pmon emon : Monster) : ℚ :=
  min (95/100) (max (1/10)
    ((((pmon.stats "speed").getD 50 : ℚ) * 32
        / ((max 1 ((emon.stats "speed").getD 50) : ℤ) : ℚ) + 30) / 100))

/-- A flee action. -/
def fleeAction : BattleAction := { baseAction with action_type := ActionType.flee }

/-- A capture attempt action with a chosen ball. -/
def catchAction : BattleAction :=
  { baseAction with action_type := ActionType.catch, ball_id := "ball" }

/-- A battle with a two-monster player team and a nonzero player stage. -/
def twoTeamBattle : Battle :=
  { sampleBattle with
      player_team :=
        [sampleMonster, { sampleMonster with instance_id := "a2", name := "beta" }]
      player_stat_stages := fun s => if s = "speed" then -2 else 0 }

/-- A battle whose active enemy has fainted, with a nonzero enemy stat
stage and a healthy replacement in the enemy team. -/
def faintedEnemyBattle : Battle :=
  { sampleBattle with
      enemy_team :=
        [{ sampleMonster with instance_id := "e1", current_hp := 0 },
          { sampleMonster with instance_id := "e2", name := "backup", current_hp := 50 }]
      enemy_stat_stages := fun s => if s = "attack" then 3 else 0 }

/- ===================== Theorems ===================== -/

/-- Truncation toward zero and flooring agree once clamped below by 1. -/
theorem max_one_pyInt (q : ℚ) : max 1 (pyInt q) = max 1 ⌊q⌋ := by
  unfold pyInt
  by_cases h : 0 ≤ q
  · simp [h]
  · push_neg at h
    have hc : ⌈q⌉ ≤ 0 := by
      have : ⌈q⌉ ≤ ⌈(0 : ℚ)⌉ := Int.ceil_le_ceil (le_of_lt h)
      simpa using this
    have hf : ⌊q⌋ ≤ 0 := le_trans (Int.floor_le_ceil q) hc
    simp [h, not_le.mpr h]
    omega

theorem pyInt_nonneg {q : ℚ} (h : 0 ≤ q) : 0 ≤ pyInt q := by
  unfold pyInt
  simp only [h, if_true]
  exact Int.floor_nonneg.mpr h

theorem hpInv_applyTurnOp {m : Monster} {op : TurnOp}
    (hm : hpInv m) (hwf : turnOpWF op) :
    hpInv (applyTurnOp m op) ∧ (applyTurnOp m op).max_hp = m.max_hp := by
  obtain ⟨h0, h1⟩ := hm
  cases op with
  | skillDamage damage =>
    simp only [turnOpWF] at hwf
    simp only [hpInv, applyTurnOp, apply_skill_damage]
    split_ifs <;> dsimp only <;> refine ⟨⟨?_, ?_⟩, ?_⟩ <;> first | trivial | omega
  | drainHeal damage =>
    simp only [hpInv, applyTurnOp, apply_drain_heal]
    split_ifs <;> dsimp only <;> refine ⟨⟨?_, ?_⟩, ?_⟩ <;> first | trivial | omega
  | statusDamage =>
    simp only [hpInv, applyTurnOp, apply_status_damage_one]
    cases hst : m.status with
    | none => simp only [hst]; split_ifs <;> exact ⟨⟨h0, h1⟩, rfl⟩
    | some s =>
      simp only [hst]
      split_ifs <;> dsimp only <;> refine ⟨⟨?_, ?_⟩, ?_⟩ <;> first | trivial | omega
  | weatherDot pct immune =>
    simp only [hpInv, applyTurnOp, apply_weather_dot_one]
    split_ifs <;> dsimp only <;> refine ⟨⟨?_, ?_⟩, ?_⟩ <;> first | trivial | omega
  | regenTick =>
    simp only [hpInv, applyTurnOp, process_regen_one]
    split_ifs <;> dsimp only <;> refine ⟨⟨?_, ?_⟩, ?_⟩ <;> first | trivial | omega
  | healEffect value =>
    simp only [turnOpWF] at hwf
    simp only [hpInv, applyTurnOp, apply_heal_effect]
    have hnn : (0 : ℤ) ≤ pyInt ((m.max_hp : ℚ) * (value : ℚ) / 100) := by
      apply pyInt_nonneg
      have hmx : (0 : ℚ) ≤ (m.max_hp : ℚ) := by exact_mod_cast le_trans h0 h1
      have hv : (0 : ℚ) ≤ (value : ℚ) := by exact_mod_cast hwf
      positivity
    refine ⟨⟨?_, ?_⟩, ?_⟩ <;> dsimp only <;> first | trivial | omega
  | itemHeal amount =>
    simp only [turnOpWF] at hwf
    simp only [hpInv, applyTurnOp, apply_item_heal]
    refine ⟨⟨?_, ?_⟩, ?_⟩ <;> dsimp only <;> first | trivial | omega

theorem hpInv_foldl {m : Monster} {ops : List TurnOp}
    (hm : hpInv m) (hwf : ∀ op ∈ ops, turnOpWF op) :
    hpInv (ops.foldl applyTurnOp m) := by
  induction ops generalizing m with
  | nil => exact hm
  | cons op rest ih =>
    simp only [List.foldl_cons]
    exact ih ((hpInv_applyTurnOp hm (hwf op (by simp))).1)
      (fun o ho => hwf o (by simp [ho]))

/-- C1: with positive power, `calculate_damage` returns the floor of
`((2*level/5+2)*power*atk/def)/50 + 2` multiplied by
`typeEff * weatherMod * critMod * stabMod * randomMod`, clamped below by 1;
with `power ≤ 0` it returns 0; and the concrete neutral scenario
(level 10, attack 50, defense 50, power 40, no crit, no STAB, no random roll)
yields exactly 6. -/
theorem calculate_damage_spec (lvl atk dfn pow : ℤ) (te wm : ℚ)
    (crit stab roll : Bool) (rng : Rng) :
    (0 < pow →
      ((calculate_damage lvl atk dfn pow te wm crit stab roll rng).1.1 =
        max 1 ⌊(((2 * (lvl : ℚ) / 5 + 2) * (pow : ℚ) * (atk : ℚ) / (dfn : ℚ)) / 50 + 2)
          * te * wm * (if crit then 3/2 else 1) * (if stab then 3/2 else 1)
          * (if roll then uniformOf (85/100) 1 (rngNext rng).1 else 1)⌋))
    ∧ (pow ≤ 0 → (calculate_damage lvl atk dfn pow te wm crit stab roll rng).1.1 = 0)
    ∧ (calculate_damage 10 50 50 40 1 1 false false false List.nil).1.1 = 6 := by
  refine ⟨fun hpow => ?_, fun hpow => ?_, ?_⟩
  · have hne : ¬ pow ≤ 0 := not_le.mpr hpow
    cases roll <;>
      simp only [calculate_damage, hne, if_false, if_true, Bool.false_eq_true,
        ite_false, ite_true] <;>
      rw [max_one_pyInt]
  · simp [calculate_damage, hpow]
  · norm_num [calculate_damage, pyInt]

/-- Witness for C1: instantiates the formula characterization at the
concrete neutral scenario, discharging the positivity hypothesis. -/
theorem calculate_damage_spec_witness :
    (calculate_damage 10 50 50 40 1 1 false false false List.nil).1.1 =
      max 1 ⌊(((2 * (10 : ℚ) / 5 + 2) * (40 : ℚ) * (50 : ℚ) / (50 : ℚ)) / 50 + 2)
        * 1 * 1 * (if false then 3/2 else 1) * (if false then 3/2 else 1)
        * (if false then uniformOf (85/100) 1 (rngNext List.nil).1 else 1)⌋ :=
  (calculate_damage_spec 10 50 50 40 1 1 false false false List.nil).1 (by decide)

/-- C2: starting from a monster whose HP satisfies the invariant, after any
prefix of any sequence of engine-produced turn operations (skill damage with
shield absorption, drain healing, status damage, weather damage, regen ticks,
heal effects, item heals) the monster's current HP stays in `[0, max_hp]`. -/
theorem hp_in_range_after_every_op (m : Monster) (ops : List TurnOp)
    (hm : hpInv m) (hwf : ∀ op ∈ ops, turnOpWF op) (n : ℕ) :
    hpInv ((ops.take n).foldl applyTurnOp m) :=
  hpInv_foldl hm (fun op ho => hwf op (List.mem_of_mem_take ho))

/-- Witness for C2: a concrete monster driven through a concrete sequence of
damage, drain, status, weather, regen, heal and item operations keeps its HP
in range at every prefix length. -/
theorem hp_in_range_after_every_op_witness :
    hpInv (((([TurnOp.skillDamage 40, TurnOp.drainHeal 40, TurnOp.statusDamage,
      TurnOp.weatherDot (1/16) false, TurnOp.regenTick, TurnOp.healEffect 30,
      TurnOp.itemHeal 50] : List TurnOp)).take 7).foldl applyTurnOp
      { baseMonster with
          current_hp := 60, max_hp := 100, shield := 15,
          status := some "poison", drain_percent := 25, regen := 10,
          regen_turns := 2 }) := by
  apply hp_in_range_after_every_op
  · constructor <;> norm_num [baseMonster]
  · intro op hop
    fin_cases hop <;> norm_num [turnOpWF]

/-- C3 counterexample: attacker with a 50% drain flag, defender with a
60-point shield, raw damage 100.  The code heals `floor(40 * 50/100) = 20`
HP (from the post-absorption remainder 40), not 50% of the raw damage 100:
the attacker ends at 30 HP, not 60. -/
theorem drain_raw_damage_counterexample :
    (apply_drain_heal drainAttacker
        (apply_skill_damage shieldedDefender 100).2.1).1.current_hp = 30
    ∧ (30 : ℤ) ≠ 10 + 100 * 50 / 100 := by
  constructor
  · norm_num [apply_skill_damage, apply_drain_heal, pyInt, baseMonster,
      drainAttacker, shieldedDefender]
  · decide

/-- C3 amended: the drain heal on an attack is computed from the
post-shield-absorption damage (`damage - absorbed`), truncated via
`floor(damage * percent / 100)` and capped at max HP; and processing a
move's own `drain` effect spec only sets the attacker's drain-percent flag
(consumed by later attacks), changing nothing else about the battle. -/
theorem drain_heal_spec (a d : Monster) (damage : ℤ) (b : Battle) (is_p : Bool)
    (eff : EffectSpec)
    (hdp : 0 < a.drain_percent)
    (hd : 0 < (apply_skill_damage d damage).2.1)
    (hdr : 0 < pyInt (((apply_skill_damage d damage).2.1 : ℚ) * (a.drain_percent : ℚ) / 100))
    (hetype : eff.etype = "drain") :
    ((apply_skill_damage d damage).2.1
      = damage - (if 0 < d.shield then min d.shield damage else 0))
    ∧ ((apply_drain_heal a ((apply_skill_damage d damage).2.1)).1.current_hp
      = min a.max_hp (a.current_hp +
          pyInt (((apply_skill_damage d damage).2.1 : ℚ) * (a.drain_percent : ℚ) / 100)))
    ∧ ((process_single_effect b is_p eff).1
      = (match b.activeMonster is_p with
          | some act => b.setActiveMonster is_p { act with drain_percent := eff.value }
          | none => b)) := by
  refine ⟨?_, ?_, ?_⟩
  · simp only [apply_skill_damage]
    split_ifs <;> dsimp only <;> omega
  · simp only [apply_drain_heal, hdp, hd, hdr, and_self, if_true, true_and]
  · simp only [process_single_effect, hetype]
    have h₁ : ("drain" ∈ statusNames) = False := by simp [statusNames]
    have h₂ : pyEndsWith "drain" "_up" = false := by decide
    have h₃ : pyEndsWith "drain" "_down" = false := by decide
    simp only [h₁, h₂, h₃, statusNames]
    norm_num [onActor]
    cases h : b.activeMonster is_p <;> simp [h]

/-- Witness for C3: the amended drain semantics instantiated at the
concrete shielded exchange used by the counterexample. -/
theorem drain_heal_spec_witness :
    (0 : ℤ) < drainAttacker.drain_percent
    ∧ (0 : ℤ) < (apply_skill_damage shieldedDefender 100).2.1
    ∧ ((apply_skill_damage shieldedDefender 100).2.1
        = 100 - (if 0 < shieldedDefender.shield then
            min shieldedDefender.shield 100 else 0)) := by
  have h1 : (0 : ℤ) < drainAttacker.drain_percent := by
    norm_num [drainAttacker, baseMonster]
  have h2 : (0 : ℤ) < (apply_skill_damage shieldedDefender 100).2.1 := by
    norm_num [apply_skill_damage, shieldedDefender, baseMonster]
  have h3 : (0 : ℤ) < pyInt
      (((apply_skill_damage shieldedDefender 100).2.1 : ℚ)
        * (drainAttacker.drain_percent : ℚ) / 100) := by
    norm_num [apply_skill_damage, shieldedDefender, drainAttacker, baseMonster, pyInt]
  exact ⟨h1, h2,
    (drain_heal_spec drainAttacker shieldedDefender 100 sampleBattle true
      { baseEffect with etype := "drain", value := 50 } h1 h2 h3 rfl).1⟩

/-- C4: evaluation of the effect dispatch at the claim's inputs.  Because
the `endswith("_up")/endswith("_down")` branch precedes the percent-buff
branch in `_process_single_effect`, an `attack_up` spec with value 30 is
treated as a +30 stat-stage change (clamped to +6) and the actor's buff
percent stays 0 with no duration; a `critical_up` spec is a complete no-op
(`critical` is not a stage key).  The isolated `_apply_percent_buff` helper
does implement the claimed additive-percent / max-duration semantics, but
is unreachable for these effect types. -/
theorem percent_buff_branch_shadowed :
    ((process_single_effect sampleBattle true atkUpEffect).1.player_stat_stages
      "attack" = 6)
    ∧ (((process_single_effect sampleBattle true atkUpEffect).1.player_team.get? 0).map
        (fun m => m.buff "attack") = some 0)
    ∧ (((process_single_effect sampleBattle true atkUpEffect).1.player_team.get? 0).map
        (fun m => m.buff_turns "attack") = some 0)
    ∧ ((process_single_effect sampleBattle true critUpEffect).1 = sampleBattle)
    ∧ ((process_single_effect sampleBattle true critUpEffect).2 = [])
    ∧ ((apply_percent_buff_m { sampleMonster with buff := fun s =>
          if s = "attack" then 20 else 0 } "attack_up" 30
          { atkUpEffect with duration := some 4 }).1.buff "attack" = 50)
    ∧ ((apply_percent_buff_m { sampleMonster with buff_turns := fun s =>
          if s = "attack" then 9 else 0 } "attack_up" 30
          { atkUpEffect with duration := some 4 }).1.buff_turns "attack" = 9) := by
  have hmem : ("attack_up" ∈ statusNames) = False := by simp [statusNames]
  have hmem' : ("critical_up" ∈ statusNames) = False := by simp [statusNames]
  have he₁ : pyEndsWith "attack_up" "_up" = true := by decide
  have he₂ : pyEndsWith "critical_up" "_up" = true := by decide
  have hr₀ : pyReplace "attack_up" "_up" "" = "attack" := by decide
  have hr₁ : pyReplace "attack" "_down" "" = "attack" := by decide
  have hr₂ : pyReplace "critical_up" "_up" "" = "critical" := by decide
  have hr₃ : pyReplace "critical" "_down" "" = "critical" := by decide
  have hs₁ : ("attack" ∈ stageKeys) = True := by simp [stageKeys]
  have hs₂ : ("critical" ∈ stageKeys) = False := by simp [stageKeys]
  refine ⟨?_, ?_, ?_, ?_, ?_, ?_, ?_⟩ <;>
    simp [process_single_effect, apply_stat_stage_change, atkUpEffect, critUpEffect,
      baseEffect, hmem, hmem', he₁, he₂, hr₀, hr₁, hr₂, hr₃, hs₁, hs₂, sampleBattle,
      sampleMonster, baseMonster, Battle.setStage, Battle.stagesOf, zeroStages,
      apply_percent_buff_m]

/-- C5 counterexample: in `faintedEnemyBattle` the active enemy has fainted
and `_check_battle_end` auto-selects the backup monster (index 1), yet the
enemy side's attack stage stays 3 instead of being reset to 0. -/
theorem auto_switch_keeps_stages_counterexample :
    ((check_battle_end emptyConfig faintedEnemyBattle baseTurnRes
        List.nil).1.enemy_active_index = 1)
    ∧ ((check_battle_end emptyConfig faintedEnemyBattle baseTurnRes
        List.nil).1.enemy_stat_stages "attack" = 3)
    ∧ (3 : ℤ) ≠ 0 := by
  refine ⟨?_, ?_, by decide⟩ <;>
    simp [check_battle_end, faintedEnemyBattle, sampleBattle, sampleMonster,
      baseMonster, Battle.playerAvailable, Battle.enemyAvailable,
      Battle.player_monster, Battle.enemy_monster, baseTurnRes, List.findIdx?]

/-- C5 amended: an explicit Switch action that succeeds resets the switching
side's stat stages to all zeros, but the automatic replacement of a fainted
AI-side monster inside `_check_battle_end` leaves both sides' stat stages
untouched. -/
theorem switch_stage_reset_spec (b : Battle) (sid : String) (is_p : Bool)
    (cfg : Config) (res : TurnRes) (rng : Rng)
    (hs : (execute_switch b sid is_p).2.success = true) :
    ((execute_switch b sid is_p).1.stagesOf is_p = zeroStages)
    ∧ ((check_battle_end cfg b res rng).1.player_stat_stages = b.player_stat_stages)
    ∧ ((check_battle_end cfg b res rng).1.enemy_stat_stages = b.enemy_stat_stages) := by
  refine ⟨?_, ?_, ?_⟩
  · simp only [execute_switch] at hs ⊢
    cases hfind : (if is_p then b.player_team else b.enemy_team).findIdx?
        (fun m => m.instance_id = sid) with
    | none => simp only [hfind] at hs; simp [baseActionRes] at hs
    | some idx =>
      simp only [hfind] at hs ⊢
      by_cases hhp : (((if is_p then b.player_team else b.enemy_team).get? idx).getD
          baseMonster).current_hp ≤ 0
      · simp only [hhp, if_true] at hs; simp [baseActionRes] at hs
      · simp only [hhp, if_false]
        cases is_p <;> simp [Battle.stagesOf]
  · unfold check_battle_end calculate_battle_rewards
    split_ifs <;> try rfl
    repeat' split <;> try rfl
  · unfold check_battle_end calculate_battle_rewards
    split_ifs <;> try rfl
    repeat' split <;> try rfl

/-- Witness for C5: the amended statement at a concrete successful switch
(player swaps to the second team member) and the concrete fainted-enemy
replacement battle. -/
theorem switch_stage_reset_spec_witness :
    ((execute_switch twoTeamBattle "a2" true).2.success = true)
    ∧ ((execute_switch twoTeamBattle "a2" true).1.stagesOf true = zeroStages) := by
  have hs : (execute_switch twoTeamBattle "a2" true).2.success = true := by
    simp [execute_switch, twoTeamBattle, sampleBattle, sampleMonster, baseMonster,
      List.findIdx?, baseActionRes]
  exact ⟨hs, (switch_stage_reset_spec twoTeamBattle "a2" true emptyConfig
    baseTurnRes List.nil hs).1⟩

/-- C6: order resolution.  A player Switch goes first regardless of speed
(which also settles a double switch in the player's favor); an enemy Switch
against a non-Switch goes first; otherwise higher move priority (default 0)
wins, then higher effective speed (stage/buff math, halved truncating for a
paralyzed monster), and an exact speed tie is settled by the next uniform
draw against 1/2. -/
theorem action_order_spec (cfg : Config) (b : Battle)
    (pa ea : BattleAction) (rng : Rng) :
    (pa.action_type = ActionType.switch →
      (determine_action_order cfg b pa ea rng).1 = (pa, ea, true))
    ∧ (pa.action_type ≠ ActionType.switch → ea.action_type = ActionType.switch →
      (determine_action_order cfg b pa ea rng).1 = (ea, pa, false))
    ∧ (pa.action_type ≠ ActionType.switch → ea.action_type ≠ ActionType.switch →
      (move_priority cfg ea < move_priority cfg pa →
        (determine_action_order cfg b pa ea rng).1 = (pa, ea, true))
      ∧ (move_priority cfg pa < move_priority cfg ea →
        (determine_action_order cfg b pa ea rng).1 = (ea, pa, false))
      ∧ (move_priority cfg pa = move_priority cfg ea →
        (order_speed b false < order_speed b true →
          (determine_action_order cfg b pa ea rng).1 = (pa, ea, true))
        ∧ (order_speed b true < order_speed b false →
          (determine_action_order cfg b pa ea rng).1 = (ea, pa, false))
        ∧ (order_speed b true = order_speed b false →
          (determine_action_order cfg b pa ea rng).1 =
            (if (rngNext rng).1 < 1/2 then (pa, ea, true) else (ea, pa, false))))) := by
  refine ⟨fun h1 => ?_, fun h1 h2 => ?_, fun h1 h2 => ⟨fun hp => ?_, fun hp => ?_,
    fun hp => ⟨fun hsp => ?_, fun hsp => ?_, fun hsp => ?_⟩⟩⟩ <;>
    simp only [determine_action_order]
  · rw [if_pos h1]
  · rw [if_neg h1, if_pos h2]
  · rw [if_neg h1, if_neg h2,
      if_pos (show move_priority cfg pa ≠ move_priority cfg ea by omega), if_pos hp]
  · rw [if_neg h1, if_neg h2,
      if_pos (show move_priority cfg pa ≠ move_priority cfg ea by omega),
      if_neg (show ¬ move_priority cfg ea < move_priority cfg pa by omega)]
  · rw [if_neg h1, if_neg h2,
      if_neg (show ¬ (move_priority cfg pa ≠ move_priority cfg ea) by omega),
      if_neg (show ¬ order_speed b true = order_speed b false by omega),
      if_pos hsp]
  · rw [if_neg h1, if_neg h2,
      if_neg (show ¬ (move_priority cfg pa ≠ move_priority cfg ea) by omega),
      if_neg (show ¬ order_speed b true = order_speed b false by omega),
      if_neg (show ¬ order_speed b false < order_speed b true by omega)]
  · rw [if_neg h1, if_neg h2,
      if_neg (show ¬ (move_priority cfg pa ≠ move_priority cfg ea) by omega),
      if_pos hsp]
    split_ifs <;> rfl

/-- Witness for C6: two plain skill actions with unknown move ids (priority
0 each) on `sampleBattle` (equal effective speeds 30), so the tie is settled
by the concrete draw 0.3 < 0.5: the player acts first. -/
theorem action_order_spec_witness :
    ((baseAction.action_type ≠ ActionType.switch)
    ∧ (move_priority emptyConfig baseAction = move_priority emptyConfig baseAction)
    ∧ (order_speed sampleBattle true = order_speed sampleBattle false))
    ∧ (determine_action_order emptyConfig sampleBattle baseAction baseAction
        [3/10]).1 =
      (if (rngNext [3/10]).1 < 1/2 then (baseAction, baseAction, true)
        else (baseAction, baseAction, false)) := by
  have h1 : baseAction.action_type ≠ ActionType.switch := by decide
  have h2 : order_speed sampleBattle true = order_speed sampleBattle false := by
    norm_num [order_speed, get_effective_stat, sampleBattle, sampleMonster,
      baseMonster, Battle.activeMonster, Battle.player_monster, Battle.enemy_monster,
      Battle.stagesOf, zeroStages, statStageMult, sampleStats, pyInt]
  exact ⟨⟨h1, rfl, h2⟩,
    ((action_order_spec emptyConfig sampleBattle baseAction baseAction
      [3/10]).2.2 h1 h1).2.2 rfl |>.2.2 h2⟩

/-- C7 counterexample: a capture attempt in the boss battle (capture
disallowed) is rejected and reported, yet `process_turn` has already
advanced the turn counter from 7 to 8 — the claim that the turn does not
advance is false. -/
theorem invalid_action_turn_advances_counterexample :
    ((process_turn emptyConfig none sampleBossBattle catchAction
        List.nil).1.turn_count = 8)
    ∧ sampleBossBattle.turn_count = 7
    ∧ ((process_turn emptyConfig none sampleBossBattle catchAction
        List.nil).2.1.messages = [Msg.catchBlocked])
    ∧ ((process_turn emptyConfig none sampleBossBattle catchAction
        List.nil).2.1.battle_ended = false) := by
  refine ⟨?_, rfl, ?_, ?_⟩ <;>
    simp [process_turn, process_catch, catchAction, baseAction, sampleBossBattle,
      sampleBattle, baseTurnRes]

/-- C7 amended: an invalid action is rejected with a reported failure and
the rejected action itself mutates nothing — a disallowed capture leaves the
battle state identical except for the turn counter, which has already
advanced, and a failing switch returns the battle unchanged. -/
theorem invalid_action_spec (cfg : Config) (pm : Option PlayerMgr) (b : Battle)
    (pa : BattleAction) (rng : Rng) (sid : String) (is_p : Bool)
    (hc : b.can_catch = false) (hpa : pa.action_type = ActionType.catch)
    (hf : (execute_switch b sid is_p).2.success = false) :
    ((process_turn cfg pm b pa rng).1 = { b with turn_count := b.turn_count + 1 })
    ∧ ((process_turn cfg pm b pa rng).2.1.messages = [Msg.catchBlocked])
    ∧ ((process_turn cfg pm b pa rng).2.1.battle_ended = false)
    ∧ ((process_turn cfg pm b pa rng).2.2 = rng)
    ∧ ((execute_switch b sid is_p).1 = b) := by
  have hne : pa.action_type ≠ ActionType.flee := by rw [hpa]; decide
  refine ⟨?_, ?_, ?_, ?_, ?_⟩ <;>
    try simp [process_turn, process_catch, hne, hpa, hc, baseTurnRes]
  simp only [execute_switch] at hf ⊢
  cases hfind : (if is_p then b.player_team else b.enemy_team).findIdx?
      (fun m => m.instance_id = sid) with
  | none => simp only [hfind]
  | some idx =>
    simp only [hfind] at hf ⊢
    by_cases hhp : (((if is_p then b.player_team else b.enemy_team).get? idx).getD
        baseMonster).current_hp ≤ 0
    · simp only [hhp, if_true]
    · simp only [hhp, if_false] at hf
      simp [baseActionRes] at hf

/-- Witness for C7: the amended statement at the boss battle with the
concrete capture attempt and a switch naming an unknown monster id. -/
theorem invalid_action_spec_witness :
    (sampleBossBattle.can_catch = false
    ∧ catchAction.action_type = ActionType.catch
    ∧ (execute_switch sampleBossBattle "nope" true).2.success = false)
    ∧ (process_turn emptyConfig none sampleBossBattle catchAction List.nil).1 =
      { sampleBossBattle with turn_count := sampleBossBattle.turn_count + 1 } := by
  have hc : sampleBossBattle.can_catch = false := rfl
  have hpa : catchAction.action_type = ActionType.catch := rfl
  have hf : (execute_switch sampleBossBattle "nope" true).2.success = false := by
    simp [execute_switch, sampleBossBattle, sampleBattle, sampleMonster, baseMonster,
      List.findIdx?, baseActionRes]
  exact ⟨⟨hc, hpa, hf⟩,
    (invalid_action_spec emptyConfig none sampleBossBattle catchAction List.nil
      "nope" true hc hpa hf).1⟩

/-- C8: with a sane capture configuration (hp-modifier min ≤ max, cap
min ≤ max) and nonnegative rate factors, the capture chance computed by
`_process_catch` is monotonically non-increasing in the target's HP (hence
in its HP ratio, the max HP being fixed), and always lies in the configured
`[min, max]` clamp range. -/
theorem catch_chance_spec (cc : CatchConfig) (base ball buff : ℚ)
    (cur1 cur2 maxhp : ℤ)
    (hmm : cc.hp_min ≤ cc.hp_max) (hb : 0 ≤ base) (hball : 0 ≤ ball)
    (hbuff : 0 ≤ buff) (hcap : cc.rate_min ≤ cc.rate_max) (hc : cur1 ≤ cur2) :
    (catch_chance_value cc base ball buff cur2 maxhp
      ≤ catch_chance_value cc base ball buff cur1 maxhp)
    ∧ cc.rate_min ≤ catch_chance_value cc base ball buff cur1 maxhp
    ∧ catch_chance_value cc base ball buff cur1 maxhp ≤ cc.rate_max := by
  have hpct : catch_hp_percent cur1 maxhp ≤ catch_hp_percent cur2 maxhp := by
    unfold catch_hp_percent
    split_ifs with h
    · have hmq : (0 : ℚ) < (maxhp : ℚ) := by exact_mod_cast h
      have hcq : (cur1 : ℚ) ≤ (cur2 : ℚ) := by exact_mod_cast hc
      exact max_le_max le_rfl (by gcongr)
    · exact le_rfl
  have hmod : cc.hp_max - (cc.hp_max - cc.hp_min) * catch_hp_percent cur2 maxhp
      ≤ cc.hp_max - (cc.hp_max - cc.hp_min) * catch_hp_percent cur1 maxhp := by
    nlinarith [hpct, hmm]
  have hraw : base * (cc.hp_max - (cc.hp_max - cc.hp_min) * catch_hp_percent cur2 maxhp)
      * ball * buff
      ≤ base * (cc.hp_max - (cc.hp_max - cc.hp_min) * catch_hp_percent cur1 maxhp)
      * ball * buff := by
    have hk : (0 : ℚ) ≤ base * ball * buff := by positivity
    calc base * (cc.hp_max - (cc.hp_max - cc.hp_min) * catch_hp_percent cur2 maxhp)
          * ball * buff
        = (base * ball * buff) *
            (cc.hp_max - (cc.hp_max - cc.hp_min) * catch_hp_percent cur2 maxhp) := by
          ring
      _ ≤ (base * ball * buff) *
            (cc.hp_max - (cc.hp_max - cc.hp_min) * catch_hp_percent cur1 maxhp) :=
          mul_le_mul_of_nonneg_left hmod hk
      _ = base * (cc.hp_max - (cc.hp_max - cc.hp_min) * catch_hp_percent cur1 maxhp)
            * ball * buff := by ring
  refine ⟨?_, ?_, ?_⟩
  · unfold catch_chance_value
    exact max_le_max le_rfl (min_le_min le_rfl hraw)
  · exact le_max_left _ _
  · unfold catch_chance_value
    exact max_le hcap (min_le_left _ _)

/-- Witness for C8: the default capture configuration (hp modifier 0..1,
cap 0.05..0.95), base rate 0.5, ball bonus 2, no player buff, target at
10/100 vs 100/100 HP. -/
theorem catch_chance_spec_witness :
    (emptyConfig.catch_config.hp_min ≤ emptyConfig.catch_config.hp_max
    ∧ (0 : ℚ) ≤ 1/2 ∧ (0 : ℚ) ≤ 2 ∧ (0 : ℚ) ≤ 1
    ∧ emptyConfig.catch_config.rate_min ≤ emptyConfig.catch_config.rate_max
    ∧ (10 : ℤ) ≤ 100)
    ∧ (catch_chance_value emptyConfig.catch_config (1/2) 2 1 100 100
      ≤ catch_chance_value emptyConfig.catch_config (1/2) 2 1 10 100) := by
  have h₁ : emptyConfig.catch_config.hp_min ≤ emptyConfig.catch_config.hp_max := by
    norm_num [emptyConfig]
  have h₂ : emptyConfig.catch_config.rate_min ≤ emptyConfig.catch_config.rate_max := by
    norm_num [emptyConfig]
  exact ⟨⟨h₁, by norm_num, by norm_num, by norm_num, h₂, by norm_num⟩,
    (catch_chance_spec emptyConfig.catch_config (1/2) 2 1 10 100 100 h₁
      (by norm_num) (by norm_num) (by norm_num) h₂ (by norm_num)).1⟩

/-- C9: in a battle that allows fleeing, with both active monsters present,
fleeing succeeds exactly when the next uniform draw is below
`clamp(0.10, 0.95, (ownSpeed*32/max(1,oppSpeed)+30)/100)`; a successful flee
ends the battle with the fled outcome (winner tag "flee", battle inactive),
and a failed flee consumes the turn with no further action from either side
(only the turn counter changes, no actions are recorded). -/
theorem flee_spec (cfg : Config) (pm : Option PlayerMgr) (b : Battle)
    (pa : BattleAction) (rng : Rng) (pmon emon : Monster)
    (hflee : b.can_flee = true) (hpa : pa.action_type = ActionType.flee)
    (hp : b.player_monster = some pmon) (he : b.enemy_monster = some emon) :
    ((process_flee b rng).1.1 = true ↔ (rngNext rng).1 < flee_chance_formula pmon emon)
    ∧ ((rngNext rng).1 < flee_chance_formula pmon emon →
        (process_turn cfg pm b pa rng).2.1.battle_ended = true
        ∧ (process_turn cfg pm b pa rng).2.1.winner = "flee"
        ∧ (process_turn cfg pm b pa rng).1.is_active = false)
    ∧ (¬ (rngNext rng).1 < flee_chance_formula pmon emon →
        (process_turn cfg pm b pa rng).1 = { b with turn_count := b.turn_count + 1 }
        ∧ (process_turn cfg pm b pa rng).2.1.battle_ended = false
        ∧ (process_turn cfg pm b pa rng).2.1.messages = [Msg.fleeFail]
        ∧ (process_turn cfg pm b pa rng).2.1.actions = []) := by
  have hpu : b.player_team.get? b.player_active_index = some pmon := hp
  have heu : b.enemy_team.get? b.enemy_active_index = some emon := he
  refine ⟨?_, fun hr => ?_, fun hr => ?_⟩
  · simp only [process_flee, hflee, eq_self_iff_true, not_true, if_false, hp, he]
    split_ifs with h
    · exact iff_of_true rfl h
    · exact iff_of_false (by simp) h
  · simp only [process_turn, hpa, eq_self_iff_true, if_true, process_flee, hflee,
      Battle.player_monster, Battle.enemy_monster, hpu, heu, not_true, if_false]
    split_ifs with h h₂ h₃ <;>
      first
        | exact ⟨rfl, rfl, rfl⟩
        | exact absurd hr h
        | exact absurd h hr
        | exact False.elim (by assumption)
        | simp_all
  · simp only [process_turn, hpa, eq_self_iff_true, if_true, process_flee, hflee,
      Battle.player_monster, Battle.enemy_monster, hpu, heu, not_true, if_false]
    split_ifs with h h₂ h₃ <;>
      first
        | exact ⟨rfl, rfl, rfl, rfl⟩
        | exact absurd hr h
        | exact absurd h hr
        | exact False.elim (by assumption)
        | simp_all

/-- Witness for C9: `sampleBattle` (both speeds 30, chance 0.62) with the
draw 0.5: the flee attempt succeeds. -/
theorem flee_spec_witness :
    (sampleBattle.can_flee = true
    ∧ fleeAction.action_type = ActionType.flee
    ∧ sampleBattle.player_monster = some sampleMonster
    ∧ (rngNext [1/2]).1 < flee_chance_formula sampleMonster
        { sampleMonster with instance_id := "e1", name := "wildling" })
    ∧ ((process_flee sampleBattle [1/2]).1.1 = true ↔
        (rngNext [1/2]).1 < flee_chance_formula sampleMonster
          { sampleMonster with instance_id := "e1", name := "wildling" }) := by
  have hflee : sampleBattle.can_flee = true := rfl
  have hpa : fleeAction.action_type = ActionType.flee := rfl
  have hp : sampleBattle.player_monster = some sampleMonster := rfl
  have he : sampleBattle.enemy_monster =
      some { sampleMonster with instance_id := "e1", name := "wildling" } := rfl
  have hlt : (rngNext [1/2]).1 < flee_chance_formula sampleMonster
      { sampleMonster with instance_id := "e1", name := "wildling" } := by
    have hsp : sampleStats "speed" = some 30 := by decide
    norm_num [rngNext, flee_chance_formula, sampleMonster, baseMonster, hsp]
  exact ⟨⟨hflee, hpa, hp, hlt⟩,
    (flee_spec emptyConfig none sampleBattle fleeAction [1/2] sampleMonster
      { sampleMonster with instance_id := "e1", name := "wildling" }
      hflee hpa hp he).1⟩

theorem mrel_eq_setConfusion {m m' : Monster} (h : eraseConf m' = eraseConf m) :
    ∃ c t, m' = setConfusion m c t := by
  refine ⟨m'.confused, m'.confused_turns, ?_⟩
  cases m with
  | mk i1 i2 i3 i4 i5 i6 i7 i8 i9 i10 i11 i12 i13 i14 i15 i16 i17 i18 i19 i20 i21 i22 i23 =>
    cases m' with
    | mk j1 j2 j3 j4 j5 j6 j7 j8 j9 j10 j11 j12 j13 j14 j15 j16 j17 j18 j19 j20 j21 j22 j23 =>
      simp only [eraseConf, setConfusion, Monster.mk.injEq] at h ⊢
      tauto

theorem stateRel_exists {b b' : Battle} (h : StateRel b b') :
    ∃ pt et, b' = { b with player_team := pt, enemy_team := et }
      ∧ pt.map eraseConf = b.player_team.map eraseConf
      ∧ et.map eraseConf = b.enemy_team.map eraseConf := by
  obtain ⟨h1, h2, h3, h4, h5, h6, h7, h8, h9, h10, h11, h12, h13, h14, h15, h16,
    h17, h18, h19⟩ := h
  refine ⟨b'.player_team, b'.enemy_team, ?_, h3, h5⟩
  cases b with
  | mk f1 f2 f3 f4 f5 f6 f7 f8 f9 f10 f11 f12 f13 f14 f15 f16 f17 f18 f19 =>
    cases b' with
    | mk g1 g2 g3 g4 g5 g6 g7 g8 g9 g10 g11 g12 g13 g14 g15 g16 g17 g18 g19 =>
      simp only [Battle.mk.injEq] at *
      tauto

theorem map_eraseConf_get? {l l' : List Monster}
    (h : l'.map eraseConf = l.map eraseConf) (i : ℕ) :
    (l'.get? i).map eraseConf = (l.get? i).map eraseConf := by
  rw [← List.get?_map, ← List.get?_map, h]

theorem map_eraseConf_set {l l' : List Monster} {x x' : Monster}
    (h : l'.map eraseConf = l.map eraseConf) (hx : eraseConf x' = eraseConf x)
    (i : ℕ) :
    (l'.set i x').map eraseConf = (l.set i x).map eraseConf := by
  rw [List.map_set, List.map_set, h, hx]

theorem map_eraseConf_hp {l l' : List Monster}
    (h : l'.map eraseConf = l.map eraseConf) :
    l'.map Monster.current_hp = l.map Monster.current_hp := by
  have : (Monster.current_hp ∘ eraseConf) = Monster.current_hp := rfl
  calc l'.map Monster.current_hp = (l'.map eraseConf).map Monster.current_hp := by
        rw [List.map_map, this]
    _ = (l.map eraseConf).map Monster.current_hp := by rw [h]
    _ = l.map Monster.current_hp := by rw [List.map_map, this]

theorem stateRel_refl (b : Battle) : StateRel b b :=
  ⟨rfl, rfl, rfl, rfl, rfl, rfl, rfl, rfl, rfl, rfl, rfl, rfl, rfl, rfl, rfl,
    rfl, rfl, rfl, rfl⟩

theorem activeMonster_rel {b b' : Battle} (h : StateRel b b') (s : Bool) :
    (b'.activeMonster s).map eraseConf = (b.activeMonster s).map eraseConf := by
  obtain ⟨pt, et, rfl, hpt, het⟩ := stateRel_exists h
  cases s
  · exact map_eraseConf_get? het _
  · exact map_eraseConf_get? hpt _

theorem setActive_rel {b b' : Battle} {x x' : Monster} (h : StateRel b b')
    (hx : eraseConf x' = eraseConf x) (s : Bool) :
    StateRel (b.setActiveMonster s x) (b'.setActiveMonster s x') := by
  obtain ⟨pt, et, rfl, hpt, het⟩ := stateRel_exists h
  cases s
  · exact ⟨rfl, rfl, hpt, rfl, map_eraseConf_set het hx _, rfl, rfl, rfl, rfl, rfl,
      rfl, rfl, rfl, rfl, rfl, rfl, rfl, rfl, rfl⟩
  · exact ⟨rfl, rfl, map_eraseConf_set hpt hx _, rfl, het, rfl, rfl, rfl, rfl, rfl,
      rfl, rfl, rfl, rfl, rfl, rfl, rfl, rfl, rfl⟩

theorem get_effective_stat_rel {b b' : Battle} (h : StateRel b b') (s : Bool)
    (k : String) : get_effective_stat b' s k = get_effective_stat b s k := by
  have ha := activeMonster_rel h s
  obtain ⟨pt, et, rfl, hpt, het⟩ := stateRel_exists h
  unfold get_effective_stat
  cases hb : Battle.activeMonster b s with
  | none =>
    cases hb' : Battle.activeMonster { b with player_team := pt, enemy_team := et } s with
    | none => rfl
    | some m' => rw [hb, hb'] at ha; simp at ha
  | some m =>
    cases hb' : Battle.activeMonster { b with player_team := pt, enemy_team := et } s with
    | none => rw [hb, hb'] at ha; simp at ha
    | some m' =>
      rw [hb, hb'] at ha
      simp only [Option.map_some'] at ha
      obtain ⟨c, t, rfl⟩ := mrel_eq_setConfusion (Option.some.inj ha)
      cases s <;> simp [setConfusion, Battle.stagesOf]

theorem mrel_read {α : Type} {m m' : Monster} (h : eraseConf m' = eraseConf m)
    (f : Monster → α) (hf : ∀ mm c t, f (setConfusion mm c t) = f mm) :
    f m' = f m := by
  obtain ⟨c, t, rfl⟩ := mrel_eq_setConfusion h
  exact hf m c t

theorem optRead_rel {α : Type} {o o' : Option Monster}
    (h : o'.map eraseConf = o.map eraseConf) (dflt : α)
    (f : Monster → α) (hf : ∀ mm c t, f (setConfusion mm c t) = f mm) :
    (o'.map f).getD dflt = (o.map f).getD dflt := by
  cases o with
  | none =>
    cases o' with
    | none => rfl
    | some m' => simp at h
  | some m =>
    cases o' with
    | none => simp at h
    | some m' =>
      simp only [Option.map_some'] at h ⊢
      rw [mrel_read (Option.some.inj h) f hf]

theorem check_hit_rel {b b' : Battle} (h : StateRel b b') (s : Bool)
    (base_accuracy : ℤ) (rng : Rng) :
    check_hit b' s base_accuracy rng = check_hit b s base_accuracy rng := by
  have ha := activeMonster_rel h s
  have ha' := activeMonster_rel h (!s)
  obtain ⟨pt, et, rfl, hpt, het⟩ := stateRel_exists h
  by_cases hacc : 100 ≤ base_accuracy
  · simp [check_hit, hacc]
  · simp only [check_hit, hacc, if_false, Battle.stagesOf]
    simp only [optRead_rel ha (0 : ℚ) (fun m => ((m.buff "accuracy" : ℤ) : ℚ))
        (fun _ _ _ => rfl),
      optRead_rel ha (0 : ℚ) (fun m => ((m.debuff "accuracy" : ℤ) : ℚ))
        (fun _ _ _ => rfl),
      optRead_rel ha' (0 : ℚ) (fun m => ((m.buff "evasion" : ℤ) : ℚ))
        (fun _ _ _ => rfl),
      optRead_rel ha' (0 : ℚ) (fun m => ((m.debuff "evasion" : ℤ) : ℚ))
        (fun _ _ _ => rfl),
      optRead_rel ha' (0 : ℤ) (fun m => m.buff "evasion") (fun _ _ _ => rfl),
      optRead_rel ha' (0 : ℤ) (fun m => m.debuff "evasion") (fun _ _ _ => rfl)]

theorem check_critical_mrel {sk : Skill} {m m' : Monster}
    (hm : eraseConf m' = eraseConf m) (rng : Rng) :
    check_critical sk m' rng = check_critical sk m rng := by
  obtain ⟨c, t, rfl⟩ := mrel_eq_setConfusion hm
  simp [check_critical, setConfusion]

theorem calculate_skill_damage_rel {cfg : Config} {b b' : Battle}
    {att att' dfn dfn' : Monster} (h : StateRel b b')
    (hA : eraseConf att' = eraseConf att) (hD : eraseConf dfn' = eraseConf dfn)
    (sk : Skill) (s : Bool) (rng : Rng) :
    calculate_skill_damage cfg b' att' dfn' sk s rng
      = calculate_skill_damage cfg b att dfn sk s rng := by
  obtain ⟨cA, tA, rfl⟩ := mrel_eq_setConfusion hA
  obtain ⟨cD, tD, rfl⟩ := mrel_eq_setConfusion hD
  have hg := get_effective_stat_rel h
  obtain ⟨pt, et, rfl, hpt, het⟩ := stateRel_exists h
  simp only [calculate_skill_damage, check_critical, setConfusion, hg]

theorem apply_skill_damage_mrel {d d' : Monster} (hd : eraseConf d' = eraseConf d)
    (damage : ℤ) :
    eraseConf (apply_skill_damage d' damage).1 = eraseConf (apply_skill_damage d damage).1
    ∧ (apply_skill_damage d' damage).2 = (apply_skill_damage d damage).2 := by
  obtain ⟨c, t, rfl⟩ := mrel_eq_setConfusion hd
  simp only [apply_skill_damage, setConfusion]
  first
    | exact ⟨rfl, rfl⟩
    | exact ⟨rfl, trivial⟩
    | (split_ifs <;> first | exact ⟨rfl, rfl⟩ | exact ⟨rfl, trivial⟩)

theorem apply_drain_heal_mrel {a a' : Monster} (ha : eraseConf a' = eraseConf a)
    (damage : ℤ) :
    eraseConf (apply_drain_heal a' damage).1 = eraseConf (apply_drain_heal a damage).1
    ∧ (apply_drain_heal a' damage).2 = (apply_drain_heal a damage).2 := by
  obtain ⟨c, t, rfl⟩ := mrel_eq_setConfusion ha
  simp only [apply_drain_heal, setConfusion]
  first
    | exact ⟨rfl, rfl⟩
    | exact ⟨rfl, trivial⟩
    | (split_ifs <;> first | exact ⟨rfl, rfl⟩ | exact ⟨rfl, trivial⟩)

theorem apply_heal_effect_mrel {a a' : Monster} (ha : eraseConf a' = eraseConf a)
    (value : ℤ) :
    eraseConf (apply_heal_effect a' value).1 = eraseConf (apply_heal_effect a value).1
    ∧ (apply_heal_effect a' value).2 = (apply_heal_effect a value).2 := by
  obtain ⟨c, t, rfl⟩ := mrel_eq_setConfusion ha
  simp only [apply_heal_effect, setConfusion]
  first
    | exact ⟨rfl, rfl⟩
    | exact ⟨rfl, trivial⟩
    | (split_ifs <;> first | exact ⟨rfl, rfl⟩ | exact ⟨rfl, trivial⟩)

theorem apply_regen_m_mrel {a a' : Monster} (ha : eraseConf a' = eraseConf a)
    (value : ℤ) (eff : EffectSpec) :
    eraseConf (apply_regen_m a' value eff).1 = eraseConf (apply_regen_m a value eff).1
    ∧ (apply_regen_m a' value eff).2 = (apply_regen_m a value eff).2 := by
  obtain ⟨c, t, rfl⟩ := mrel_eq_setConfusion ha
  exact ⟨rfl, rfl⟩

theorem apply_shield_m_mrel {a a' : Monster} (ha : eraseConf a' = eraseConf a)
    (value : ℤ) (eff : EffectSpec) :
    eraseConf (apply_shield_m a' value eff).1 = eraseConf (apply_shield_m a value eff).1
    ∧ (apply_shield_m a' value eff).2 = (apply_shield_m a value eff).2 := by
  obtain ⟨c, t, rfl⟩ := mrel_eq_setConfusion ha
  exact ⟨rfl, rfl⟩

theorem apply_percent_buff_m_mrel {a a' : Monster} (ha : eraseConf a' = eraseConf a)
    (etype : String) (value : ℤ) (eff : EffectSpec) :
    eraseConf (apply_percent_buff_m a' etype value eff).1
      = eraseConf (apply_percent_buff_m a etype value eff).1
    ∧ (apply_percent_buff_m a' etype value eff).2
      = (apply_percent_buff_m a etype value eff).2 := by
  obtain ⟨c, t, rfl⟩ := mrel_eq_setConfusion ha
  exact ⟨rfl, rfl⟩

theorem apply_percent_debuff_m_mrel {a a' : Monster} (ha : eraseConf a' = eraseConf a)
    (etype : String) (value : ℤ) (eff : EffectSpec) :
    eraseConf (apply_percent_debuff_m a' etype value eff).1
      = eraseConf (apply_percent_debuff_m a etype value eff).1
    ∧ (apply_percent_debuff_m a' etype value eff).2
      = (apply_percent_debuff_m a etype value eff).2 := by
  obtain ⟨c, t, rfl⟩ := mrel_eq_setConfusion ha
  exact ⟨rfl, rfl⟩

theorem apply_confuse_m_mrel {d d' : Monster} (hd : eraseConf d' = eraseConf d)
    (eff : EffectSpec) :
    eraseConf (apply_confuse_m d' eff).1 = eraseConf (apply_confuse_m d eff).1
    ∧ (apply_confuse_m d' eff).2.filter nonConfusionEvent
      = (apply_confuse_m d eff).2.filter nonConfusionEvent := by
  obtain ⟨c, t, rfl⟩ := mrel_eq_setConfusion hd
  simp only [apply_confuse_m, setConfusion]
  first
    | exact ⟨rfl, rfl⟩
    | exact ⟨rfl, trivial⟩
    | (split_ifs <;> first | exact ⟨rfl, rfl⟩ | exact ⟨rfl, trivial⟩)

theorem apply_status_effect_b_rel {b b' : Battle} (h : StateRel b b')
    (tp : Bool) (status : String) :
    StateRel (apply_status_effect_b b tp status).1 (apply_status_effect_b b' tp status).1
    ∧ (apply_status_effect_b b' tp status).2 = (apply_status_effect_b b tp status).2 := by
  have ha := activeMonster_rel h tp
  unfold apply_status_effect_b
  cases hb : b.activeMonster tp with
  | none =>
    cases hb' : b'.activeMonster tp with
    | none => exact ⟨h, rfl⟩
    | some d' => rw [hb, hb'] at ha; simp at ha
  | some d =>
    cases hb' : b'.activeMonster tp with
    | none => rw [hb, hb'] at ha; simp at ha
    | some d' =>
      rw [hb, hb'] at ha
      simp only [Option.map_some'] at ha
      obtain ⟨c, t, rfl⟩ := mrel_eq_setConfusion (Option.some.inj ha)
      simp only [setConfusion]
      split_ifs <;>
        first
          | exact ⟨h, rfl⟩
          | exact ⟨setActive_rel h (by rfl) tp, rfl⟩

theorem apply_stat_stage_change_rel {b b' : Battle} (h : StateRel b b') (s : Bool)
    (eff : EffectSpec) :
    StateRel (apply_stat_stage_change b s eff).1 (apply_stat_stage_change b' s eff).1
    ∧ (apply_stat_stage_change b' s eff).2 = (apply_stat_stage_change b s eff).2 := by
  obtain ⟨pt, et, rfl, hpt, het⟩ := stateRel_exists h
  simp only [apply_stat_stage_change, Battle.stagesOf, Battle.setStage]
  split_ifs <;>
    exact ⟨⟨rfl, rfl, hpt, rfl, het, rfl, rfl, rfl, rfl, rfl, rfl, rfl, rfl, rfl,
      rfl, rfl, rfl, rfl, rfl⟩, rfl⟩

theorem onActor_rel {b b' : Battle} (h : StateRel b b') (s : Bool)
    (f : Monster → Monster × List Msg)
    (hf : ∀ m m', eraseConf m' = eraseConf m →
      eraseConf (f m').1 = eraseConf (f m).1
      ∧ (f m').2.filter nonConfusionEvent = (f m).2.filter nonConfusionEvent) :
    StateRel (onActor b s f).1 (onActor b' s f).1
    ∧ (onActor b' s f).2.filter nonConfusionEvent
      = (onActor b s f).2.filter nonConfusionEvent := by
  have ha := activeMonster_rel h s
  unfold onActor
  cases hb : b.activeMonster s with
  | none =>
    cases hb' : b'.activeMonster s with
    | none => exact ⟨h, rfl⟩
    | some d' => rw [hb, hb'] at ha; simp at ha
  | some d =>
    cases hb' : b'.activeMonster s with
    | none => rw [hb, hb'] at ha; simp at ha
    | some d' =>
      rw [hb, hb'] at ha
      simp only [Option.map_some'] at ha
      have hm := Option.some.inj ha
      exact ⟨setActive_rel h (hf d d' hm).1 s, (hf d d' hm).2⟩

set_option maxHeartbeats 1600000 in
theorem process_single_effect_rel {b b' : Battle} (h : StateRel b b') (s : Bool)
    (eff : EffectSpec) :
    StateRel (process_single_effect b s eff).1 (process_single_effect b' s eff).1
    ∧ (process_single_effect b' s eff).2.filter nonConfusionEvent
      = (process_single_effect b s eff).2.filter nonConfusionEvent := by
  simp only [process_single_effect]
  split_ifs with h1 h2 h3 h4 h5 h6 h7 h8 h9
  · exact ⟨(apply_status_effect_b_rel h (!s) eff.etype).1,
      congrArg (List.filter nonConfusionEvent) (apply_status_effect_b_rel h (!s) eff.etype).2⟩
  · exact ⟨(apply_stat_stage_change_rel h s eff).1,
      congrArg (List.filter nonConfusionEvent) (apply_stat_stage_change_rel h s eff).2⟩
  · exact onActor_rel h s _ (fun m m' hm =>
      ⟨(apply_heal_effect_mrel hm eff.value).1,
       congrArg (List.filter nonConfusionEvent) (apply_heal_effect_mrel hm eff.value).2⟩)
  · exact onActor_rel h s _ (fun m m' hm =>
      ⟨(apply_regen_m_mrel hm eff.value eff).1,
       congrArg (List.filter nonConfusionEvent) (apply_regen_m_mrel hm eff.value eff).2⟩)
  · exact onActor_rel h s _ (fun m m' hm =>
      ⟨(apply_shield_m_mrel hm eff.value eff).1,
       congrArg (List.filter nonConfusionEvent) (apply_shield_m_mrel hm eff.value eff).2⟩)
  · refine ⟨(onActor_rel h s _ (fun m m' hm => ?_)).1, rfl⟩
    obtain ⟨c, t, rfl⟩ := mrel_eq_setConfusion hm
    exact ⟨rfl, rfl⟩
  · exact onActor_rel h s _ (fun m m' hm =>
      ⟨(apply_percent_buff_m_mrel hm eff.etype eff.value eff).1,
       congrArg (List.filter nonConfusionEvent)
         (apply_percent_buff_m_mrel hm eff.etype eff.value eff).2⟩)
  · exact onActor_rel h (!s) _ (fun m m' hm =>
      ⟨(apply_percent_debuff_m_mrel hm eff.etype eff.value eff).1,
       congrArg (List.filter nonConfusionEvent)
         (apply_percent_debuff_m_mrel hm eff.etype eff.value eff).2⟩)
  · exact onActor_rel h (!s) _ (fun m m' hm => apply_confuse_m_mrel hm eff)
  · exact ⟨h, rfl⟩

theorem process_effects_fold_rel (s : Bool) (effects : List EffectSpec) :
    ∀ (b b' : Battle) (ms ms' : List Msg) (rng : Rng),
      StateRel b b' → ms'.filter nonConfusionEvent = ms.filter nonConfusionEvent →
      StateRel (effects.foldl (process_effects_step s) (b, ms, rng)).1
          (effects.foldl (process_effects_step s) (b', ms', rng)).1
      ∧ (effects.foldl (process_effects_step s) (b', ms', rng)).2.1.filter nonConfusionEvent
        = (effects.foldl (process_effects_step s) (b, ms, rng)).2.1.filter nonConfusionEvent
      ∧ (effects.foldl (process_effects_step s) (b', ms', rng)).2.2
        = (effects.foldl (process_effects_step s) (b, ms, rng)).2.2 := by
  induction effects with
  | nil => exact fun b b' ms ms' rng hb hm => ⟨hb, hm, rfl⟩
  | cons e es ih =>
    intro b b' ms ms' rng hb hm
    rcases hrn : rngNext rng with ⟨r₀, rng₁⟩
    simp only [List.foldl_cons]
    by_cases hc : e.chance < r₀ * 100
    · have hstep : process_effects_step s (b, ms, rng) e = (b, ms, rng₁) := by
        simp only [process_effects_step, hrn]
        rw [if_pos hc]
      have hstep' : process_effects_step s (b', ms', rng) e = (b', ms', rng₁) := by
        simp only [process_effects_step, hrn]
        rw [if_pos hc]
      rw [hstep, hstep']
      exact ih b b' ms ms' rng₁ hb hm
    · obtain ⟨hsr, hmf⟩ := process_single_effect_rel hb s e
      have hstep : process_effects_step s (b, ms, rng) e
          = ((process_single_effect b s e).1,
             ms ++ (process_single_effect b s e).2, rng₁) := by
        simp only [process_effects_step, hrn]
        rw [if_neg hc]
      have hstep' : process_effects_step s (b', ms', rng) e
          = ((process_single_effect b' s e).1,
             ms' ++ (process_single_effect b' s e).2, rng₁) := by
        simp only [process_effects_step, hrn]
        rw [if_neg hc]
      rw [hstep, hstep']
      refine ih _ _ _ _ rng₁ hsr ?_
      rw [List.filter_append, List.filter_append, hm, hmf]

theorem process_skill_effects_rel {b b' : Battle} (h : StateRel b b') (s : Bool)
    (effects : List EffectSpec) (rng : Rng) :
    StateRel (process_skill_effects b s effects rng).1
        (process_skill_effects b' s effects rng).1
    ∧ (process_skill_effects b' s effects rng).2.1.filter nonConfusionEvent
      = (process_skill_effects b s effects rng).2.1.filter nonConfusionEvent
    ∧ (process_skill_effects b' s effects rng).2.2
      = (process_skill_effects b s effects rng).2.2 :=
  process_effects_fold_rel s effects b b' [] [] rng h rfl

theorem skill_status_gate_rel {b b' : Battle} (h : StateRel b b') (s : Bool)
    (rng : Rng) :
    StateRel (skill_status_gate b s rng).1 (skill_status_gate b' s rng).1
    ∧ (skill_status_gate b' s rng).2.1 = (skill_status_gate b s rng).2.1
    ∧ (skill_status_gate b' s rng).2.2.1 = (skill_status_gate b s rng).2.2.1
    ∧ (skill_status_gate b' s rng).2.2.2 = (skill_status_gate b s rng).2.2.2 := by
  have ha := activeMonster_rel h s
  rcases hrn : rngNext rng with ⟨r₀, rng₁⟩
  unfold skill_status_gate
  cases hb : b.activeMonster s with
  | none =>
    cases hb' : b'.activeMonster s with
    | none => exact ⟨h, rfl, rfl, rfl⟩
    | some d' => rw [hb, hb'] at ha; simp at ha
  | some d =>
    cases hb' : b'.activeMonster s with
    | none => rw [hb, hb'] at ha; simp at ha
    | some d' =>
      rw [hb, hb'] at ha
      simp only [Option.map_some'] at ha
      obtain ⟨c, t, rfl⟩ := mrel_eq_setConfusion (Option.some.inj ha)
      simp only [setConfusion, hrn]
      cases d.status with
      | none => exact ⟨h, rfl, rfl, rfl⟩
      | some st =>
        dsimp only
        split_ifs <;>
          refine ⟨?_, ?_, ?_, ?_⟩ <;>
            first
              | exact h
              | exact setActive_rel h (by rfl) s
              | rfl
              | trivial

theorem getD_rel {o o' : Option Monster} (ho : o'.map eraseConf = o.map eraseConf)
    {d d' : Monster} (hd : eraseConf d' = eraseConf d) :
    eraseConf (o'.getD d') = eraseConf (o.getD d) := by
  cases o <;> cases o' <;> simp_all

theorem skill_damage_phase_rel {cfg : Config} {b b' : Battle}
    {att att' dfn dfn' : Monster} (h : StateRel b b')
    (hA : eraseConf att' = eraseConf att) (hD : eraseConf dfn' = eraseConf dfn)
    (sk : Skill) (s : Bool) (rng : Rng) :
    StateRel (skill_damage_phase cfg b att dfn sk s rng).1
        (skill_damage_phase cfg b' att' dfn' sk s rng).1
    ∧ (skill_damage_phase cfg b' att' dfn' sk s rng).2.1
      = (skill_damage_phase cfg b att dfn sk s rng).2.1
    ∧ (skill_damage_phase cfg b' att' dfn' sk s rng).2.2.1
      = (skill_damage_phase cfg b att dfn sk s rng).2.2.1
    ∧ (skill_damage_phase cfg b' att' dfn' sk s rng).2.2.2.1
      = (skill_damage_phase cfg b att dfn sk s rng).2.2.2.1
    ∧ (skill_damage_phase cfg b' att' dfn' sk s rng).2.2.2.2.1
      = (skill_damage_phase cfg b att dfn sk s rng).2.2.2.2.1
    ∧ (skill_damage_phase cfg b' att' dfn' sk s rng).2.2.2.2.2.1
      = (skill_damage_phase cfg b att dfn sk s rng).2.2.2.2.2.1
    ∧ (skill_damage_phase cfg b' att' dfn' sk s rng).2.2.2.2.2.2
      = (skill_damage_phase cfg b att dfn sk s rng).2.2.2.2.2.2 := by
  rcases hcs : calculate_skill_damage cfg b att dfn sk s rng with ⟨triple, rng₁⟩
  have hcs' := (calculate_skill_damage_rel h hA hD sk s rng).trans hcs
  simp only [skill_damage_phase, hcs, hcs']
  obtain ⟨hS1, hS2⟩ := apply_skill_damage_mrel hD triple.1
  have hb₁ := setActive_rel h hS1 (!s)
  have hAtt₁ : eraseConf (((b'.setActiveMonster (!s) (apply_skill_damage dfn' triple.1).1).activeMonster
        s).getD att')
      = eraseConf (((b.setActiveMonster (!s) (apply_skill_damage dfn triple.1).1).activeMonster
        s).getD att) :=
    getD_rel (activeMonster_rel hb₁ s) hA
  have hda : (apply_skill_damage dfn' triple.1).2.1 = (apply_skill_damage dfn triple.1).2.1 := by
    rw [hS2]
  obtain ⟨hDr1, hDr2⟩ := apply_drain_heal_mrel hAtt₁ (apply_skill_damage dfn triple.1).2.1
  have hhp : (apply_skill_damage dfn' triple.1).1.current_hp
      = (apply_skill_damage dfn triple.1).1.current_hp :=
    mrel_read hS1 Monster.current_hp (fun _ _ _ => rfl)
  refine ⟨?_, ?_, ?_, ?_, ?_, ?_, ?_⟩
  · rw [hda]
    exact setActive_rel hb₁ hDr1 s
  · first | rfl | trivial
  · first | rfl | trivial
  · first | rfl | trivial
  · first | rw [hhp] | trivial
  · rw [hS2, hDr2, hhp]
  · first | rfl | trivial

set_option maxHeartbeats 1600000 in
theorem execute_skill_rel {cfg : Config} {b b' : Battle} (h : StateRel b b')
    (skill_id : String) (s : Bool) (rng : Rng) :
    StateRel (execute_skill cfg b skill_id s rng).1 (execute_skill cfg b' skill_id s rng).1
    ∧ sameOutcome (execute_skill cfg b skill_id s rng).2.1
        (execute_skill cfg b' skill_id s rng).2.1
    ∧ (execute_skill cfg b' skill_id s rng).2.2
      = (execute_skill cfg b skill_id s rng).2.2 := by
  have hN : ∀ u : Bool, (b'.activeMonster u).isNone = (b.activeMonster u).isNone := by
    intro u
    have hm := activeMonster_rel h u
    cases hx : b.activeMonster u <;> cases hx' : b'.activeMonster u <;>
      rw [hx, hx'] at hm <;> simp_all
  obtain ⟨hgS, hgP, hgM, hgR⟩ := skill_status_gate_rel h s rng
  obtain ⟨b₁, p, gm, r₁, hg⟩ :
      ∃ x q g r, skill_status_gate b s rng = (x, q, g, r) := ⟨_, _, _, _, rfl⟩
  obtain ⟨b₁', p', gm', r₁', hg'⟩ :
      ∃ x q g r, skill_status_gate b' s rng = (x, q, g, r) := ⟨_, _, _, _, rfl⟩
  rw [hg, hg'] at hgS hgP hgM hgR
  dsimp only at hgS hgP hgM hgR
  simp only [execute_skill, hN, hg, hg', hgP, hgM, hgR]
  by_cases h0 : (b.activeMonster s).isNone ∨ (b.activeMonster (!s)).isNone
  · rw [if_pos h0, if_pos h0]
    exact ⟨h, ⟨rfl, rfl, rfl, rfl, rfl, rfl, rfl⟩, rfl⟩
  · rw [if_neg h0, if_neg h0]
    by_cases h1 : ¬ p
    · rw [if_pos h1, if_pos h1]
      exact ⟨hgS, ⟨rfl, rfl, rfl, rfl, rfl, rfl, rfl⟩, rfl⟩
    · rw [if_neg h1, if_neg h1]
      cases hsk : cfg.skills skill_id with
      | none => exact ⟨hgS, ⟨rfl, rfl, rfl, rfl, rfl, rfl, rfl⟩, rfl⟩
      | some sk =>
        dsimp only
        obtain ⟨hitq, r₂, hch⟩ :
            ∃ q r, check_hit b₁ s sk.accuracy r₁ = (q, r) := ⟨_, _, rfl⟩
        have hch' : check_hit b₁' s sk.accuracy r₁ = (hitq, r₂) :=
          (check_hit_rel hgS s sk.accuracy r₁).trans hch
        rw [hch, hch']
        dsimp only
        by_cases h2 : ¬ hitq
        · rw [if_pos h2, if_pos h2]
          exact ⟨hgS, ⟨rfl, rfl, rfl, rfl, rfl, rfl, rfl⟩, rfl⟩
        · rw [if_neg h2, if_neg h2]
          have hA : eraseConf ((b₁'.activeMonster s).getD baseMonster)
              = eraseConf ((b₁.activeMonster s).getD baseMonster) :=
            getD_rel (activeMonster_rel hgS s) rfl
          have hD : eraseConf ((b₁'.activeMonster (!s)).getD baseMonster)
              = eraseConf ((b₁.activeMonster (!s)).getD baseMonster) :=
            getD_rel (activeMonster_rel hgS (!s)) rfl
          by_cases h3 : 0 < sk.power ∧ (sk.category = "physical" ∨ sk.category = "special")
          · rw [if_pos h3, if_pos h3]
            obtain ⟨hpS, hpd, hpc, hpe, hpf, hpm, hpr⟩ :=
              skill_damage_phase_rel hgS hA hD sk s r₂
            obtain ⟨b₂, dmg, crit, effq, fnt, dm, r₃, hph⟩ :
                ∃ x d c e f m r,
                  skill_damage_phase cfg b₁ ((b₁.activeMonster s).getD baseMonster)
                    ((b₁.activeMonster (!s)).getD baseMonster) sk s r₂
                  = (x, d, c, e, f, m, r) := ⟨_, _, _, _, _, _, _, rfl⟩
            obtain ⟨b₂', dmg', crit', effq', fnt', dm', r₃', hph'⟩ :
                ∃ x d c e f m r,
                  skill_damage_phase cfg b₁' ((b₁'.activeMonster s).getD baseMonster)
                    ((b₁'.activeMonster (!s)).getD baseMonster) sk s r₂
                  = (x, d, c, e, f, m, r) := ⟨_, _, _, _, _, _, _, rfl⟩
            rw [hph, hph'] at hpS hpd hpc hpe hpf hpm hpr
            dsimp only at hpS hpd hpc hpe hpf hpm hpr
            rw [hph, hph']
            dsimp only
            rw [hpd, hpc, hpe, hpf, hpm, hpr]
            obtain ⟨heS, heM, heR⟩ := process_skill_effects_rel hpS s sk.effects r₃
            obtain ⟨b₃, em, r₄, heq⟩ :
                ∃ x m r, process_skill_effects b₂ s sk.effects r₃ = (x, m, r) :=
              ⟨_, _, _, rfl⟩
            obtain ⟨b₃', em', r₄', heq'⟩ :
                ∃ x m r, process_skill_effects b₂' s sk.effects r₃ = (x, m, r) :=
              ⟨_, _, _, rfl⟩
            rw [heq, heq'] at heS heM heR
            dsimp only at heS heM heR
            rw [heq, heq']
            dsimp only
            rw [heR]
            refine ⟨heS, ⟨rfl, rfl, rfl, rfl, rfl, rfl, ?_⟩, rfl⟩
            simp only [List.filter_append, heM]
          · rw [if_neg h3, if_neg h3]
            dsimp only
            obtain ⟨heS, heM, heR⟩ := process_skill_effects_rel hgS s sk.effects r₂
            obtain ⟨b₃, em, r₄, heq⟩ :
                ∃ x m r, process_skill_effects b₁ s sk.effects r₂ = (x, m, r) :=
              ⟨_, _, _, rfl⟩
            obtain ⟨b₃', em', r₄', heq'⟩ :
                ∃ x m r, process_skill_effects b₁' s sk.effects r₂ = (x, m, r) :=
              ⟨_, _, _, rfl⟩
            rw [heq, heq'] at heS heM heR
            dsimp only at heS heM heR
            rw [heq, heq']
            dsimp only
            rw [heR]
            refine ⟨heS, ⟨rfl, rfl, rfl, rfl, rfl, rfl, ?_⟩, rfl⟩
            simp only [List.filter_append, heM]

/-- C10: confusion never influences action resolution.  For any two battle
states identical except for team members' confusion flags and remaining
confusion turns (`StateRel`), executing the same skill action with the same
RNG stream yields the same success/damage/critical/effectiveness/miss/faint
outcome and the same messages apart from confusion infliction/expiry events,
consumes the same amount of randomness, leaves the battles again related
(in particular with identical HP on every team member), and the
end-of-turn confusion decay changes nothing outside the confusion fields
and emits only the expiry event. -/
theorem confusion_non_interference {cfg : Config} {b b' : Battle}
    (h : StateRel b b') (skill_id : String) (s : Bool) (rng : Rng) :
    sameOutcome (execute_skill cfg b skill_id s rng).2.1
        (execute_skill cfg b' skill_id s rng).2.1
    ∧ (execute_skill cfg b' skill_id s rng).2.2
      = (execute_skill cfg b skill_id s rng).2.2
    ∧ StateRel (execute_skill cfg b skill_id s rng).1
        (execute_skill cfg b' skill_id s rng).1
    ∧ (execute_skill cfg b' skill_id s rng).1.player_team.map Monster.current_hp
      = (execute_skill cfg b skill_id s rng).1.player_team.map Monster.current_hp
    ∧ (execute_skill cfg b' skill_id s rng).1.enemy_team.map Monster.current_hp
      = (execute_skill cfg b skill_id s rng).1.enemy_team.map Monster.current_hp
    ∧ (∀ m : Monster, eraseConf (process_confuse_decay_one m).1 = eraseConf m
        ∧ (process_confuse_decay_one m).2.filter nonConfusionEvent = []) := by
  obtain ⟨hS, hOut, hRng⟩ := execute_skill_rel h skill_id s rng
  refine ⟨hOut, hRng, hS, map_eraseConf_hp hS.2.2.1, map_eraseConf_hp hS.2.2.2.2.1, ?_⟩
  intro m
  constructor
  · simp only [process_confuse_decay_one, eraseConf]
    split_ifs <;> rfl
  · simp only [process_confuse_decay_one]
    split_ifs <;> rfl

/-- C10 witness: the concrete battle pair differing only in the enemy's
confusion state satisfies the relation, and the claim's conclusion holds for
a tackle action on it. -/
theorem confusion_non_interference_witness :
    StateRel sampleBattle confusedEnemyBattle
    ∧ (sameOutcome (execute_skill tackleConfig sampleBattle "tackle" true []).2.1
          (execute_skill tackleConfig confusedEnemyBattle "tackle" true []).2.1
      ∧ (execute_skill tackleConfig confusedEnemyBattle "tackle" true []).2.2
        = (execute_skill tackleConfig sampleBattle "tackle" true []).2.2
      ∧ StateRel (execute_skill tackleConfig sampleBattle "tackle" true []).1
          (execute_skill tackleConfig confusedEnemyBattle "tackle" true []).1
      ∧ (execute_skill tackleConfig confusedEnemyBattle "tackle" true
            []).1.player_team.map Monster.current_hp
        = (execute_skill tackleConfig sampleBattle "tackle" true
            []).1.player_team.map Monster.current_hp
      ∧ (execute_skill tackleConfig confusedEnemyBattle "tackle" true
            []).1.enemy_team.map Monster.current_hp
        = (execute_skill tackleConfig sampleBattle "tackle" true
            []).1.enemy_team.map Monster.current_hp
      ∧ (∀ m : Monster, eraseConf (process_confuse_decay_one m).1 = eraseConf m
          ∧ (process_confuse_decay_one m).2.filter nonConfusionEvent = [])) :=
  ⟨⟨rfl, rfl, rfl, rfl, rfl, rfl, rfl, rfl, rfl, rfl, rfl, rfl, rfl, rfl, rfl, rfl,
    rfl, rfl, rfl⟩,
   confusion_non_interference
    ⟨rfl, rfl, rfl, rfl, rfl, rfl, rfl, rfl, rfl, rfl, rfl, rfl, rfl, rfl, rfl, rfl,
      rfl, rfl, rfl⟩ "tackle" true []⟩

end ElvesWorld
